import Mathlib

/-!
# RM3100 SPI driver (`Core/Src/rm3100_spi.c`)

A shallow embedding of the register transport, the data-ready gate, the
configurator and the measurement decoder of the driver, followed by the
properties established about them.

Conventions of the embedding.

* `uint8_t` / `uint16_t` values are `Nat` with an explicit `% 256` / `% 65536`
  where the C code stores into a variable of that width.  `int32_t` values are
  `Int`; every `int` operation of `data_format` wraps modulo `2 ^ 32`.
* `float gain` is an exact rational (`ℚ`).
* Hardware calls (`HAL_GPIO_*`, `HAL_SPI_*`, `HAL_UART_Transmit`, `HAL_Delay`)
  become entries of an ordered event list.  What the device answers on a
  receive is an explicit argument of the operation that receives it.
* An access outside an array, or running out of loop fuel, is a `Fault`.
* The macros of `rm3100_spi.h` (register addresses, pins, mode switches) are
  fields of `Config`.
-/

namespace RM3100

/-! ## Platform types -/

/-- The HAL pin state: `GPIO_PIN_RESET = 0`, `GPIO_PIN_SET = 1`. -/
inductive GPIO_PinState where
  | GPIO_PIN_RESET
  | GPIO_PIN_SET
  deriving DecidableEq, Repr

open GPIO_PinState

/-- HAL constant `GPIO_MODE_INPUT` (`0x00000000`). -/
def GPIO_MODE_INPUT : Nat := 0
/-- HAL constant `GPIO_NOPULL` (`0x00000000`). -/
def GPIO_NOPULL : Nat := 0
/-- HAL constant `GPIO_PULLUP` (`0x00000001`). -/
def GPIO_PULLUP : Nat := 1
/-- HAL constant `GPIO_PULLDOWN` (`0x00000002`). -/
def GPIO_PULLDOWN : Nat := 2

/-- The HAL pin-configuration record `GPIO_InitTypeDef`. -/
structure GPIO_InitTypeDef where
  Pin : Nat
  Mode : Nat
  Pull : Nat
  Speed : Nat
  Alternate : Nat
  deriving DecidableEq, Repr

/-- The macros the driver takes from `rm3100_spi.h` and the HAL port `GPIOB`;
the header is not part of the sources, so each is a parameter.  The three
switches are C truth values (`0` is false). -/
structure Config where
  USE_DR_PIN : Nat
  SINGLE_MODE : Nat
  UART_DBG : Nat
  INITIAL_CC : Nat
  DR_PIN : Nat
  DR_GPIO : Nat
  GPIOB : Nat
  CS_PIN : Nat
  CS_GPIO : Nat
  STATUS_REG : Nat
  REVID_REG : Nat
  CCX1_REG : Nat
  CCX0_REG : Nat
  CMM_REG : Nat
  POLL_REG : Nat
  deriving DecidableEq, Repr

/-- The text handed to `uart_print`: which `sprintf` format filled `msg`, and
the value it was filled from.  The formatting itself is the C library's. -/
inductive Msg where
  | revidId (revid : Nat)
  | cyclesCount (cycle_count : Nat)
  | gainIs (gain : ℚ)
  deriving DecidableEq

/-- One call into the platform layer. -/
inductive Event where
  | gpioInit (port : Nat) (init : GPIO_InitTypeDef)
  | gpioWrite (port pin : Nat) (state : GPIO_PinState)
  | gpioRead (port pin : Nat)
  | spiTransmit (bytes : List Nat)
  | spiReceive (size : Nat)
  | spiTransmitReceive (tx : List Nat) (size : Nat)
  | uartTransmit (m : Msg)
  | delay (ms : Nat)
  deriving DecidableEq

/-- Ways an execution leaves defined behaviour, or fails to finish. -/
inductive Fault where
  | storeOutOfBounds (index : Nat)
  | loadOutOfBounds (index : Nat)
  | indeterminate (index : Nat)
  | outOfFuel
  deriving DecidableEq, Repr

deriving instance DecidableEq for Except

/-- The frame buffer size, `#define SPI_MAX_SEND 32`. -/
def SPI_MAX_SEND : Nat := 32

/-- The globals `revid`, `cycle_count`, `gain`. -/
structure DeviceState where
  revid : Nat
  cycle_count : Nat
  gain : ℚ
  deriving DecidableEq

/-- The globals as the C initialisers leave them: `revid` and `cycle_count`
are zero-initialised, `float gain = 1.0`. -/
def initialState : DeviceState := { revid := 0, cycle_count := 0, gain := 1 }

/-- Modelled from the spec: the record `RM3100_DATA` is declared in
`rm3100_spi.h`, which is missing; the spec gives `x, y, z : i32` and
`gain : float`. -/
structure RM3100_DATA where
  x : Int
  y : Int
  z : Int
  gain : ℚ
  deriving DecidableEq

/-- Chip-select low: `HAL_GPIO_WritePin (CS_GPIO, CS_PIN, GPIO_PIN_RESET)`. -/
def csLow (cfg : Config) : Event := Event.gpioWrite cfg.CS_GPIO cfg.CS_PIN GPIO_PIN_RESET

/-- Chip-select high: `HAL_GPIO_WritePin (CS_GPIO, CS_PIN, GPIO_PIN_SET)`. -/
def csHigh (cfg : Config) : Event := Event.gpioWrite cfg.CS_GPIO cfg.CS_PIN GPIO_PIN_SET

/-! ## 32-bit `int` arithmetic -/

/-- The bit pattern of an `int32_t`. -/
def toU32 (a : Int) : Nat := (a % 4294967296).toNat

/-- The `int32_t` with a given bit pattern. -/
def toI32 (n : Nat) : Int :=
  if n % 4294967296 < 2147483648 then (n % 4294967296 : Nat) else (n % 4294967296 : Nat) - 4294967296

/-- Multiplication of `int`s, wrapping. -/
def mul32 (a b : Int) : Int := toI32 (toU32 (a * b))

/-- Bitwise or of `int`s. -/
def or32 (a b : Int) : Int := toI32 (toU32 a ||| toU32 b)

/-! ## Measurement decoder -/

/-- The byte `readings[i]` of the `uint8_t readings[9]` of `RM3100_SPI_DATA`. -/
def rd (readings : List Nat) (i : Nat) : Nat := readings.getD i 0 % 256

/-- One axis of `data_format`: `if (readings[i2] & 0x80) v = 0xFF;` then
`v = (v*256*256*256) | (int32_t) readings[i2]*256*256
     | (uint16_t) readings[i1]*256 | readings[i0]`. -/
def format_axis (v : Int) (readings : List Nat) (i2 i1 i0 : Nat) : Int :=
  let v1 : Int := if rd readings i2 &&& 0x80 ≠ 0 then 0xFF else v
  or32 (or32 (or32 (mul32 (mul32 (mul32 v1 256) 256) 256)
                   (mul32 (mul32 (rd readings i2) 256) 256))
             (mul32 (rd readings i1 % 65536 : Nat) 256))
       (rd readings i0)

/-- The function `data_format`, with `enum {x2 = 0, x1 = 1, x0 = 2, y2 = 3, y1 = 4, y0 = 5,
z2 = 6, z1 = 7, z0 = 8}`. -/
def data_format (dados : RM3100_DATA) (readings : List Nat) : RM3100_DATA :=
  { x := format_axis dados.x readings 0 1 2
    y := format_axis dados.y readings 3 4 5
    z := format_axis dados.z readings 6 7 8
    gain := dados.gain }

/-! ## Register transport -/

/-- The assignment `buffer[i] = v` on a local array whose cells may still be indeterminate. -/
def store (buffer : List (Option Nat)) (i v : Nat) : Except Fault (List (Option Nat)) :=
  if i < buffer.length then Except.ok (buffer.set i (some v))
  else Except.error (Fault.storeOutOfBounds i)

/-- The copy loop of `RM3100_SPI_WRITE`,
`for (int i = 1; i <= size; i++) buffer_saida[i] = data[i-1];`,
entered at loop index `i` with `n = size + 1 - i` iterations left. -/
def copy_loop (data : List Nat) : Nat → Nat → List (Option Nat) → Except Fault (List (Option Nat))
  | 0, _, buffer => Except.ok buffer
  | n + 1, i, buffer =>
    match data.get? (i - 1) with
    | none => Except.error (Fault.loadOutOfBounds (i - 1))
    | some v =>
      match store buffer i v with
      | Except.error e => Except.error e
      | Except.ok buffer1 => copy_loop data n (i + 1) buffer1

/-- The values of a run of cells, all of which must have been written. -/
def determinate : Nat → List (Option Nat) → Except Fault (List Nat)
  | _, [] => Except.ok []
  | k, none :: _ => Except.error (Fault.indeterminate k)
  | k, some v :: rest =>
    match determinate (k + 1) rest with
    | Except.error e => Except.error e
    | Except.ok vs => Except.ok (v :: vs)

/-- The `len` bytes `HAL_SPI_Transmit` reads from the start of `buffer`. -/
def transmitted (buffer : List (Option Nat)) (len : Nat) : Except Fault (List Nat) :=
  if len ≤ buffer.length then determinate 0 (buffer.take len)
  else Except.error (Fault.loadOutOfBounds buffer.length)

/-- The function `RM3100_SPI_WRITE(addr, data, size)`: the events it emits.
`data` is the `uint8_t` array the pointer refers to, as the list of its
elements; `addr` and `size` are the arguments as received. -/
def RM3100_SPI_WRITE (cfg : Config) (addr : Nat) (data : List Nat) (size : Nat) :
    Except Fault (List Event) :=
  let buffer_saida : List (Option Nat) := List.replicate SPI_MAX_SEND none
  match store buffer_saida 0 ((addr <<< 1) % 256) with
  | Except.error e => Except.error e
  | Except.ok buffer0 =>
    match copy_loop data size 1 buffer0 with
    | Except.error e => Except.error e
    | Except.ok buffer1 =>
      match transmitted buffer1 (size + 1) with
      | Except.error e => Except.error e
      | Except.ok frame =>
        Except.ok [csLow cfg, Event.spiTransmit frame, csHigh cfg]

/-- The function `RM3100_SPI_READ(addr, data, size)`: the bytes left in `data`, and the
events.  `rx i` is the `i`-th byte the device clocks out during the receive. -/
def RM3100_SPI_READ (cfg : Config) (addr : Nat) (rx : Nat → Nat) (size : Nat) :
    List Nat × List Event :=
  let addr_7bit := (addr <<< 1) % 256
  ((List.range size).map (fun i => rx i % 256),
   [csLow cfg, Event.spiTransmit [addr_7bit], Event.spiReceive size, csHigh cfg])

/-- The six-byte `buffer` of `RM3100_SPI_CHANGE_CC`. -/
def cc_buffer (new_cc : Nat) : List Nat :=
  let CCMSB := (((new_cc % 65536) &&& 0xFF00) >>> 8) % 256
  let CCLSB := ((new_cc % 65536) &&& 0xFF) % 256
  [CCMSB, CCLSB, CCMSB, CCLSB, CCMSB, CCLSB]

/-- The function `RM3100_SPI_CHANGE_CC(new_cc)`. -/
def RM3100_SPI_CHANGE_CC (cfg : Config) (new_cc : Nat) : Except Fault (List Event) :=
  RM3100_SPI_WRITE cfg cfg.CCX1_REG (cc_buffer new_cc) 6

/-! ## Diagnostics -/

/-- The function `uart_print(msg, dbg_enabled)`. -/
def uart_print (m : Msg) (dbg_enabled : Nat) : List Event :=
  if dbg_enabled = 0 then [] else [Event.uartTransmit m, Event.delay 1000]

/-! ## Data-ready gate -/

/-- Pin-driven wait: `while(HAL_GPIO_ReadPin(GPIOB, DR_PIN) == GPIO_PIN_RESET);`.
`pin i` is what the `i`-th read of the pin returns. -/
def wait_dr_pin (cfg : Config) (pin : Nat → GPIO_PinState) : Nat → Nat → Except Fault (List Event)
  | 0, _ => Except.error Fault.outOfFuel
  | fuel + 1, i =>
    if pin i = GPIO_PIN_RESET then
      match wait_dr_pin cfg pin fuel (i + 1) with
      | Except.error e => Except.error e
      | Except.ok evs => Except.ok (Event.gpioRead cfg.GPIOB cfg.DR_PIN :: evs)
    else Except.ok [Event.gpioRead cfg.GPIOB cfg.DR_PIN]

/-- Register-driven wait:
`do { RM3100_SPI_READ(STATUS_REG, &status, 1); } while((status & 0x80) != 0x80);`.
`status i` is the byte the device returns to the `i`-th read. -/
def wait_dr_reg (cfg : Config) (status : Nat → Nat) : Nat → Nat → Except Fault (List Event)
  | 0, _ => Except.error Fault.outOfFuel
  | fuel + 1, i =>
    let r := RM3100_SPI_READ cfg cfg.STATUS_REG (fun _ => status i) 1
    if r.1.headD 0 &&& 0x80 ≠ 0x80 then
      match wait_dr_reg cfg status fuel (i + 1) with
      | Except.error e => Except.error e
      | Except.ok evs => Except.ok (r.2 ++ evs)
    else Except.ok r.2

/-- The function `wait_dr()`, with the fuel bounding its busy-wait. -/
def wait_dr (cfg : Config) (pin : Nat → GPIO_PinState) (status : Nat → Nat) (fuel : Nat) :
    Except Fault (List Event) :=
  if cfg.USE_DR_PIN ≠ 0 then wait_dr_pin cfg pin fuel 0 else wait_dr_reg cfg status fuel 0

/-! ## Device configurator -/

/-- The gain line of `RM3100_SPI_SETUP`:
`gain = (0.3671 * (float)cycle_count) + 1.5;`. -/
def gain_of (cycle_count : Nat) : ℚ := 3671 / 10000 * (cycle_count : ℚ) + 3 / 2

/-- The cycle-count line of `RM3100_SPI_SETUP`:
`cycle_count = (((uint16_t) cc_tmp1) << 8) | ((uint16_t) cc_tmp2);`. -/
def reassemble (cc_tmp1 cc_tmp2 : Nat) : Nat :=
  (((cc_tmp1 % 65536) <<< 8) ||| (cc_tmp2 % 65536)) % 65536

/-- What the device returns to the three reads of `RM3100_SPI_SETUP`. -/
structure SetupReplies where
  revid : Nat
  ccx1 : Nat
  ccx0 : Nat
  deriving DecidableEq, Repr

/-- The result of `RM3100_SPI_SETUP`. -/
structure SetupResult where
  state : DeviceState
  init : GPIO_InitTypeDef
  events : List Event
  deriving DecidableEq

/-- The function `RM3100_SPI_SETUP(GPIO_InitStruct)`: the globals, the pin-configuration
record and the events it leaves.  The events are, in program order: the pin
configuration, the identity read and its diagnostic, the cycle-count write,
the two read-backs, the cycle-count and gain diagnostics, and the
sampling-mode writes. -/
def RM3100_SPI_SETUP (cfg : Config) (GPIO_InitStruct : GPIO_InitTypeDef) (dev : SetupReplies) :
    Except Fault SetupResult :=
  let init1 : GPIO_InitTypeDef :=
    { GPIO_InitStruct with Pin := cfg.DR_PIN, Mode := GPIO_MODE_INPUT, Pull := GPIO_NOPULL }
  let e0 := [Event.gpioInit cfg.DR_GPIO init1]
  let r0 := RM3100_SPI_READ cfg cfg.REVID_REG (fun _ => dev.revid) 1
  let revid := r0.1.headD 0
  let e1 := uart_print (Msg.revidId revid) cfg.UART_DBG
  match RM3100_SPI_CHANGE_CC cfg (cfg.INITIAL_CC % 65536) with
  | Except.error e => Except.error e
  | Except.ok e2 =>
    let r1 := RM3100_SPI_READ cfg cfg.CCX1_REG (fun _ => dev.ccx1) 1
    let cc_tmp1 := r1.1.headD 0
    let r2 := RM3100_SPI_READ cfg cfg.CCX0_REG (fun _ => dev.ccx0) 1
    let cc_tmp2 := r2.1.headD 0
    let cycle_count := reassemble cc_tmp1 cc_tmp2
    let e3 := uart_print (Msg.cyclesCount cycle_count) cfg.UART_DBG
    let gain := gain_of cycle_count
    let e4 := uart_print (Msg.gainIs gain) cfg.UART_DBG
    let st : DeviceState := { revid := revid, cycle_count := cycle_count, gain := gain }
    let before := e0 ++ r0.2 ++ e1 ++ e2 ++ r1.2 ++ r2.2 ++ e3 ++ e4
    if cfg.SINGLE_MODE ≠ 0 then
      match RM3100_SPI_WRITE cfg cfg.CMM_REG [0] 1 with
      | Except.error e => Except.error e
      | Except.ok w1 =>
        match RM3100_SPI_WRITE cfg cfg.POLL_REG [0x70] 1 with
        | Except.error e => Except.error e
        | Except.ok w2 => Except.ok { state := st, init := init1, events := before ++ w1 ++ w2 }
    else
      match RM3100_SPI_WRITE cfg cfg.CMM_REG [0x79] 1 with
      | Except.error e => Except.error e
      | Except.ok w1 => Except.ok { state := st, init := init1, events := before ++ w1 }

/-! ## Sampling -/

/-- The filler `hex_val` sent during the 9-byte exchange. -/
def hex_val : List Nat := [0xA5, 0xA6, 0xA7, 0xA8, 0xA9, 0xAA, 0xAB, 0xAC, 0]

/-- The burst read of `RM3100_SPI_DATA`: chip-select low, the command byte
`tmp = 0xA4`, the 9-byte transmit-receive, chip-select high. -/
def burst_read (cfg : Config) : List Event :=
  [csLow cfg, Event.spiTransmit [0xA4], Event.spiTransmitReceive hex_val 9, csHigh cfg]

/-- The function `RM3100_SPI_DATA()`.  `readings` is the 9-byte window the device returns
to the transmit-receive. -/
def RM3100_SPI_DATA (cfg : Config) (st : DeviceState) (pin : Nat → GPIO_PinState)
    (status : Nat → Nat) (fuel : Nat) (readings : List Nat) :
    Except Fault (RM3100_DATA × List Event) :=
  let dados : RM3100_DATA := { x := 0, y := 0, z := 0, gain := st.gain }
  match wait_dr cfg pin status fuel with
  | Except.error e => Except.error e
  | Except.ok e0 => Except.ok (data_format dados readings, e0 ++ burst_read cfg)

/-! ## The driver as a state machine over its globals -/

/-- A call of one of the public operations, with what the device answers. -/
inductive Op where
  | setup (GPIO_InitStruct : GPIO_InitTypeDef) (dev : SetupReplies)
  | changeCC (new_cc : Nat)
  | write (addr : Nat) (data : List Nat) (size : Nat)
  | read (addr : Nat) (rx : Nat → Nat) (size : Nat)
  | data (pin : Nat → GPIO_PinState) (status : Nat → Nat) (fuel : Nat) (readings : List Nat)

/-- The globals after one public operation. -/
def step (cfg : Config) (st : DeviceState) : Op → Except Fault DeviceState
  | Op.setup g dev =>
    match RM3100_SPI_SETUP cfg g dev with
    | Except.error e => Except.error e
    | Except.ok r => Except.ok r.state
  | Op.changeCC new_cc =>
    match RM3100_SPI_CHANGE_CC cfg new_cc with
    | Except.error e => Except.error e
    | Except.ok _ => Except.ok st
  | Op.write addr data size =>
    match RM3100_SPI_WRITE cfg addr data size with
    | Except.error e => Except.error e
    | Except.ok _ => Except.ok st
  | Op.read _ _ _ => Except.ok st
  | Op.data pin status fuel readings =>
    match RM3100_SPI_DATA cfg st pin status fuel readings with
    | Except.error e => Except.error e
    | Except.ok _ => Except.ok st

/-- The globals after a sequence of public operations. -/
def run (cfg : Config) : DeviceState → List Op → Except Fault DeviceState
  | st, [] => Except.ok st
  | st, op :: ops =>
    match step cfg st op with
    | Except.error e => Except.error e
    | Except.ok st1 => run cfg st1 ops

/-- A configuration used for concrete evaluations: the RM3100 register map
(`POLL 0x00`, `CMM 0x01`, `CCX 0x04/0x05`, `STATUS 0x34`, `REVID 0x36`),
cycle count 200, single-shot mode, status-register data-ready, no diagnostics. -/
def sampleConfig : Config :=
  { USE_DR_PIN := 0, SINGLE_MODE := 1, UART_DBG := 0, INITIAL_CC := 200,
    DR_PIN := 1, DR_GPIO := 1, GPIOB := 1, CS_PIN := 16, CS_GPIO := 0,
    STATUS_REG := 0x34, REVID_REG := 0x36, CCX1_REG := 0x04, CCX0_REG := 0x05,
    CMM_REG := 0x01, POLL_REG := 0x00 }

/-- An all-zero pin-configuration record. -/
def zeroInit : GPIO_InitTypeDef := { Pin := 0, Mode := 0, Pull := 0, Speed := 0, Alternate := 0 }

/-! ## Definitions used to state the properties -/

/-- The sign-extended 24-bit two's-complement value of the byte group
`(b2, b1, b0)`, most significant first: with `u = b2*65536 + b1*256 + b0`, it
is `u` when bit 7 of `b2` is clear and `u - 2^24` when it is set. -/
def signExtend24 (b2 b1 b0 : Nat) : Int :=
  if b2.testBit 7 then ((b2 * 65536 + b1 * 256 + b0 : Nat) : Int) - 16777216
  else ((b2 * 65536 + b1 * 256 + b0 : Nat) : Int)

/-- The events of `RM3100_SPI_SETUP` that precede the sampling-mode writes. -/
def setup_before (cfg : Config) (GPIO_InitStruct : GPIO_InitTypeDef) (dev : SetupReplies) :
    List Event :=
  [Event.gpioInit cfg.DR_GPIO
    { GPIO_InitStruct with Pin := cfg.DR_PIN, Mode := GPIO_MODE_INPUT, Pull := GPIO_NOPULL }]
  ++ [csLow cfg, Event.spiTransmit [(cfg.REVID_REG <<< 1) % 256], Event.spiReceive 1, csHigh cfg]
  ++ uart_print (Msg.revidId (dev.revid % 256)) cfg.UART_DBG
  ++ [csLow cfg,
      Event.spiTransmit (((cfg.CCX1_REG <<< 1) % 256) :: cc_buffer (cfg.INITIAL_CC % 65536)),
      csHigh cfg]
  ++ [csLow cfg, Event.spiTransmit [(cfg.CCX1_REG <<< 1) % 256], Event.spiReceive 1, csHigh cfg]
  ++ [csLow cfg, Event.spiTransmit [(cfg.CCX0_REG <<< 1) % 256], Event.spiReceive 1, csHigh cfg]
  ++ uart_print (Msg.cyclesCount (reassemble (dev.ccx1 % 256) (dev.ccx0 % 256))) cfg.UART_DBG
  ++ uart_print (Msg.gainIs (gain_of (reassemble (dev.ccx1 % 256) (dev.ccx0 % 256))))
      cfg.UART_DBG

/-- The sampling-mode writes that end `RM3100_SPI_SETUP`. -/
def setup_mode (cfg : Config) : List Event :=
  if cfg.SINGLE_MODE ≠ 0 then
    [csLow cfg, Event.spiTransmit [(cfg.CMM_REG <<< 1) % 256, 0x00], csHigh cfg,
     csLow cfg, Event.spiTransmit [(cfg.POLL_REG <<< 1) % 256, 0x70], csHigh cfg]
  else
    [csLow cfg, Event.spiTransmit [(cfg.CMM_REG <<< 1) % 256, 0x79], csHigh cfg]

/-- The events of `n` successive polls, each emitting `evs`. -/
def polls : Nat → List Event → List Event
  | 0, _ => []
  | n + 1, evs => evs ++ polls n evs

/-- The events of one 1-byte read of the status register. -/
def status_read (cfg : Config) : List Event :=
  [csLow cfg, Event.spiTransmit [(cfg.STATUS_REG <<< 1) % 256], Event.spiReceive 1, csHigh cfg]

/-- The stored gain is the gain of the stored cycle count. -/
def Consistent (st : DeviceState) : Prop :=
  st.gain = 3671 / 10000 * (st.cycle_count : ℚ) + 3 / 2

/-- Whether an event is one of the three SPI bus transfers. -/
def isBusTransfer : Event → Bool
  | Event.spiTransmit _ => true
  | Event.spiReceive _ => true
  | Event.spiTransmitReceive _ _ => true
  | _ => false

/-- One chip-select window: the first event drives the chip-select pin to
`GPIO_PIN_RESET` (low), the last event drives it to `GPIO_PIN_SET` (high), and
every event between them is a bus transfer, so the pin is written exactly
twice. -/
def Bracketed (cfg : Config) (evs : List Event) : Prop :=
  ∃ mid,
    evs = Event.gpioWrite cfg.CS_GPIO cfg.CS_PIN GPIO_PinState.GPIO_PIN_RESET
      :: (mid ++ [Event.gpioWrite cfg.CS_GPIO cfg.CS_PIN GPIO_PinState.GPIO_PIN_SET]) ∧
    ∀ e ∈ mid, isBusTransfer e = true

/-- The number of events that write the chip-select pin to the given level. -/
def chipSelectWrites (cfg : Config) (level : GPIO_PinState) (evs : List Event) : Nat :=
  evs.count (Event.gpioWrite cfg.CS_GPIO cfg.CS_PIN level)

/-! ## Lemmas: 32-bit arithmetic -/

theorem toU32_natCast (n : Nat) : toU32 (n : Int) = n % 4294967296 := by
  unfold toU32
  omega

theorem toU32_toI32 (n : Nat) : toU32 (toI32 n) = n % 4294967296 := by
  unfold toU32 toI32
  split <;> omega

theorem toI32_of_lt (n : Nat) (h : n < 2147483648) : toI32 n = (n : Int) := by
  unfold toI32
  split <;> omega

theorem toI32_of_ge (n : Nat) (h1 : 2147483648 ≤ n) (h2 : n < 4294967296) :
    toI32 n = (n : Int) - 4294967296 := by
  unfold toI32
  split <;> omega

theorem mul32_natCast (a b : Nat) (h : a * b < 2147483648) :
    mul32 (a : Int) (b : Int) = ((a * b : Nat) : Int) := by
  unfold mul32
  rw [← Nat.cast_mul, toU32_natCast, Nat.mod_eq_of_lt (by omega), toI32_of_lt _ h]

theorem or_bytes (h b2 b1 b0 : Nat) (h2 : b2 < 256) (h1 : b1 < 256) (h0 : b0 < 256) :
    ((h * 16777216 ||| b2 * 65536) ||| b1 * 256) ||| b0
      = h * 16777216 + b2 * 65536 + b1 * 256 + b0 := by
  have e1 := Nat.mul_add_lt_is_or (i := 24) (b := b2 * 65536) (by omega) h
  have e2 := Nat.mul_add_lt_is_or (i := 16) (b := b1 * 256) (by omega) (h * 256 + b2)
  have e3 := Nat.mul_add_lt_is_or (i := 8) (b := b0) (by omega) (h * 65536 + b2 * 256 + b1)
  have a1 : h * 16777216 = 2 ^ 24 * h := by omega
  have a2 : h * 16777216 + b2 * 65536 = 2 ^ 16 * (h * 256 + b2) := by omega
  have a3 : h * 16777216 + b2 * 65536 + b1 * 256 = 2 ^ 8 * (h * 65536 + b2 * 256 + b1) := by omega
  rw [a1, ← e1, ← a1, a2, ← e2, ← a2, a3, ← e3]

set_option maxRecDepth 100000 in
theorem bit7_iff (b : Nat) (h : b < 256) : b &&& 0x80 ≠ 0 ↔ b.testBit 7 = true := by
  revert h
  revert b
  decide

set_option maxRecDepth 100000 in
theorem testBit7_iff (b : Nat) (h : b < 256) : b.testBit 7 = true ↔ 128 ≤ b := by
  revert h
  revert b
  decide

theorem mul32_256 (b : Nat) (h : b < 8388608) :
    mul32 (b : Int) 256 = ((b * 256 : Nat) : Int) := by
  have := mul32_natCast b 256 (by omega)
  simpa using this

theorem or32_patterns (p q : Nat) : or32 (toI32 p) (q : Int)
    = toI32 (p % 4294967296 ||| q % 4294967296) := by
  unfold or32
  rw [toU32_toI32, toU32_natCast]

theorem toI32_mod (n : Nat) : toI32 (n % 4294967296) = toI32 n := by
  unfold toI32
  simp

/-- The three `|` of one axis, on bit patterns: the operands occupy disjoint
bit ranges, so the result is their sum. -/
theorem or_chain (h b2 b1 b0 : Nat) (hh : h < 256) (h2 : b2 < 256) (h1 : b1 < 256)
    (h0 : b0 < 256) :
    or32 (or32 (or32 (toI32 (h * 16777216)) ((b2 * 65536 : Nat) : Int))
      ((b1 * 256 : Nat) : Int)) (b0 : Int)
      = toI32 (h * 16777216 + b2 * 65536 + b1 * 256 + b0) := by
  have o := or_bytes h b2 b1 b0 h2 h1 h0
  have e1 := Nat.mul_add_lt_is_or (i := 24) (b := b2 * 65536) (by omega) h
  have e2 := Nat.mul_add_lt_is_or (i := 16) (b := b1 * 256) (by omega) (h * 256 + b2)
  have a1 : h * 16777216 = 2 ^ 24 * h := by omega
  have a2 : h * 16777216 + b2 * 65536 = 2 ^ 16 * (h * 256 + b2) := by omega
  have s1 : h * 16777216 ||| b2 * 65536 = h * 16777216 + b2 * 65536 := by
    rw [a1, ← e1]
  have s2 : (h * 16777216 + b2 * 65536) ||| b1 * 256
      = h * 16777216 + b2 * 65536 + b1 * 256 := by
    rw [a2, ← e2]
  rw [or32_patterns, Nat.mod_eq_of_lt (a := h * 16777216) (by omega),
    Nat.mod_eq_of_lt (a := b2 * 65536) (by omega), s1, or32_patterns,
    Nat.mod_eq_of_lt (a := h * 16777216 + b2 * 65536) (by omega),
    Nat.mod_eq_of_lt (a := b1 * 256) (by omega), s2, or32_patterns,
    Nat.mod_eq_of_lt (a := h * 16777216 + b2 * 65536 + b1 * 256) (by omega),
    Nat.mod_eq_of_lt (a := b0) (by omega)]
  rw [s1, s2] at o
  rw [o]

theorem mul32_top_set : mul32 (mul32 (mul32 0xFF 256) 256) 256 = toI32 (255 * 16777216) := by
  decide

theorem mul32_top_clear : mul32 (mul32 (mul32 0 256) 256) 256 = toI32 (0 * 16777216) := by
  decide

/-- One axis of `data_format`, started from a zeroed field, is the sign
extension of its byte group. -/
theorem format_axis_zero (readings : List Nat) (i2 i1 i0 : Nat) :
    format_axis 0 readings i2 i1 i0
      = signExtend24 (rd readings i2) (rd readings i1) (rd readings i0) := by
  have h2 : rd readings i2 < 256 := Nat.mod_lt _ (by decide)
  have h1 : rd readings i1 < 256 := Nat.mod_lt _ (by decide)
  have h0 : rd readings i0 < 256 := Nat.mod_lt _ (by decide)
  have hm : rd readings i1 % 65536 = rd readings i1 := Nat.mod_eq_of_lt (by omega)
  unfold format_axis signExtend24
  simp only [hm]
  rw [mul32_256 _ (by omega), mul32_256 _ (by omega), mul32_256 _ (by omega)]
  have e : rd readings i2 * 256 * 256 = rd readings i2 * 65536 := by omega
  rw [e]
  by_cases hb : (rd readings i2).testBit 7 = true
  · have hb2 := (bit7_iff _ h2).mpr hb
    have hge := (testBit7_iff _ h2).mp hb
    rw [if_pos hb2, if_pos hb, mul32_top_set, or_chain 255 _ _ _ (by omega) h2 h1 h0,
      toI32_of_ge _ (by omega) (by omega)]
    omega
  · have hb2 : ¬ (rd readings i2 &&& 0x80 ≠ 0) := fun h => hb ((bit7_iff _ h2).mp h)
    have hlt : rd readings i2 < 128 := by
      by_contra hc
      exact hb ((testBit7_iff _ h2).mpr (by omega))
    rw [if_neg hb2, if_neg hb, mul32_top_clear, or_chain 0 _ _ _ (by omega) h2 h1 h0,
      toI32_of_lt _ (by omega)]
    omega

/-! ## Lemmas: register transport -/

theorem determinate_map_some (l : List Nat) (k : Nat) :
    determinate k (l.map some) = Except.ok l := by
  induction l generalizing k with
  | nil => rfl
  | cons a l ih => simp [determinate, ih]

theorem take_succ_set (buffer : List (Option Nat)) (j : Nat) (v : Nat)
    (h : j < buffer.length) :
    (buffer.set j (some v)).take (j + 1) = buffer.take j ++ [some v] := by
  rw [List.set_eq_take_append_cons_drop, if_pos h]
  have hl : (List.take j buffer).length = j := by simp; omega
  rw [List.take_append_eq_append_take, hl]
  simp

theorem copy_loop_ok (data : List Nat) : ∀ (n j : Nat) (buffer : List (Option Nat)) (pre : List Nat),
    j + 1 + n ≤ buffer.length → j + n ≤ data.length →
    buffer.take (j + 1) = pre.map some →
    ∃ buffer1, copy_loop data n (j + 1) buffer = Except.ok buffer1 ∧
      buffer1.length = buffer.length ∧
      buffer1.take (j + 1 + n) = (pre ++ (data.drop j).take n).map some := by
  intro n
  induction n with
  | zero =>
    intro j buffer pre _ _ hpre
    exact ⟨buffer, rfl, rfl, by simpa using hpre⟩
  | succ n ih =>
    intro j buffer pre hb hd hpre
    have hj : j < data.length := by omega
    have hget : data.get? (j + 1 - 1) = some (data.get ⟨j, hj⟩) := by
      simp [List.getElem?_eq_getElem hj]
    have hst : store buffer (j + 1) (data.get ⟨j, hj⟩)
        = Except.ok (buffer.set (j + 1) (some (data.get ⟨j, hj⟩))) := by
      unfold store
      rw [if_pos (by omega)]
    have hpre1 : (buffer.set (j + 1) (some (data.get ⟨j, hj⟩))).take (j + 1 + 1)
        = (pre ++ [data.get ⟨j, hj⟩]).map some := by
      rw [take_succ_set _ _ _ (by omega), hpre]
      simp
    obtain ⟨b1, h1, h2, h3⟩ := ih (j + 1) (buffer.set (j + 1) (some (data.get ⟨j, hj⟩)))
      (pre ++ [data.get ⟨j, hj⟩]) (by simp; omega) (by omega) hpre1
    refine ⟨b1, ?_, by simpa using h2, ?_⟩
    · simp only [copy_loop, hget, hst]
      exact h1
    · have e : j + 1 + (n + 1) = j + 1 + 1 + n := by omega
      rw [e, h3]
      have hd1 : data.drop j = data.get ⟨j, hj⟩ :: data.drop (j + 1) :=
        List.drop_eq_getElem_cons hj
      rw [hd1, List.take_succ_cons, List.append_assoc]
      rfl

/-- The frame of a write that respects the buffer and the payload. -/
theorem write_ok (cfg : Config) (addr : Nat) (data : List Nat) (size : Nat)
    (h1 : size + 1 ≤ SPI_MAX_SEND) (h2 : size ≤ data.length) :
    RM3100_SPI_WRITE cfg addr data size
      = Except.ok [csLow cfg, Event.spiTransmit (((addr <<< 1) % 256) :: data.take size),
          csHigh cfg] := by
  have hs : store (List.replicate SPI_MAX_SEND none) 0 ((addr <<< 1) % 256)
      = Except.ok ((List.replicate SPI_MAX_SEND none).set 0 (some ((addr <<< 1) % 256))) := by
    unfold store
    rw [if_pos (by simp [SPI_MAX_SEND])]
  have hlen : ((List.replicate SPI_MAX_SEND (none : Option Nat)).set 0
      (some ((addr <<< 1) % 256))).length = SPI_MAX_SEND := by simp
  obtain ⟨b1, e1, e2, e3⟩ := copy_loop_ok data size 0
    ((List.replicate SPI_MAX_SEND none).set 0 (some ((addr <<< 1) % 256)))
    [(addr <<< 1) % 256] (by rw [hlen]; omega) (by omega) (by simp [SPI_MAX_SEND])
  have ht : transmitted b1 (size + 1)
      = Except.ok (((addr <<< 1) % 256) :: data.take size) := by
    unfold transmitted
    rw [if_pos (by rw [e2, hlen]; exact h1)]
    have e : size + 1 = 0 + 1 + size := by omega
    rw [e, e3]
    simpa using determinate_map_some (((addr <<< 1) % 256) :: data.take size) 0
  simp only [RM3100_SPI_WRITE, hs]
  simp only [Nat.zero_add] at e1
  rw [e1]
  simp only [ht]

theorem cc_buffer_length (new_cc : Nat) : (cc_buffer new_cc).length = 6 := rfl

/-- Every run of `RM3100_SPI_SETUP` completes, and this is what it leaves. -/
theorem setup_eq (cfg : Config) (g : GPIO_InitTypeDef) (dev : SetupReplies) :
    RM3100_SPI_SETUP cfg g dev = Except.ok
      { state :=
          { revid := dev.revid % 256
            cycle_count := reassemble (dev.ccx1 % 256) (dev.ccx0 % 256)
            gain := gain_of (reassemble (dev.ccx1 % 256) (dev.ccx0 % 256)) }
        init := { g with Pin := cfg.DR_PIN, Mode := GPIO_MODE_INPUT, Pull := GPIO_NOPULL }
        events := setup_before cfg g dev ++ setup_mode cfg } := by
  have hcc := write_ok cfg cfg.CCX1_REG (cc_buffer (cfg.INITIAL_CC % 65536)) 6
    (by decide) (by rw [cc_buffer_length])
  have hw : ∀ addr v, RM3100_SPI_WRITE cfg addr [v] 1
      = Except.ok [csLow cfg, Event.spiTransmit [(addr <<< 1) % 256, v], csHigh cfg] :=
    fun addr v => write_ok cfg addr [v] 1 (by decide) (Nat.le_refl 1)
  have ht : List.take 6 (cc_buffer (cfg.INITIAL_CC % 65536))
      = cc_buffer (cfg.INITIAL_CC % 65536) := rfl
  rw [ht] at hcc
  unfold RM3100_SPI_SETUP RM3100_SPI_CHANGE_CC
  simp only [hcc, hw]
  by_cases hm : cfg.SINGLE_MODE = 0
  · simp [hm, setup_before, setup_mode, RM3100_SPI_READ]
  · simp [hm, setup_before, setup_mode, RM3100_SPI_READ]

/-! ## Lemmas: data-ready gate -/

theorem wait_dr_reg_ok (cfg : Config) (status : Nat → Nat) : ∀ (k fuel i : Nat),
    (status (i + k) % 256) &&& 0x80 = 0x80 →
    (∀ j, j < k → (status (i + j) % 256) &&& 0x80 ≠ 0x80) →
    k < fuel →
    wait_dr_reg cfg status fuel i = Except.ok (polls (k + 1) (status_read cfg)) := by
  intro k
  induction k with
  | zero =>
    intro fuel i hr _ hf
    obtain ⟨f, rfl⟩ : ∃ f, fuel = f + 1 := ⟨fuel - 1, by omega⟩
    have hr0 : (status i % 256) &&& 0x80 = 0x80 := by simpa using hr
    simp [wait_dr_reg, RM3100_SPI_READ, hr0, polls, status_read]
  | succ k ih =>
    intro fuel i hr hn hf
    obtain ⟨f, rfl⟩ : ∃ f, fuel = f + 1 := ⟨fuel - 1, by omega⟩
    have h0 : (status i % 256) &&& 0x80 ≠ 0x80 := by simpa using hn 0 (by omega)
    have hr1 : (status (i + 1 + k) % 256) &&& 0x80 = 0x80 := by
      have e : i + 1 + k = i + (k + 1) := by omega
      rw [e]
      exact hr
    have hn1 : ∀ j, j < k → (status (i + 1 + j) % 256) &&& 0x80 ≠ 0x80 := by
      intro j hj
      have e : i + 1 + j = i + (j + 1) := by omega
      rw [e]
      exact hn (j + 1) (by omega)
    have hrec := ih f (i + 1) hr1 hn1 (by omega)
    have hp : polls (k + 1 + 1) (status_read cfg)
        = status_read cfg ++ polls (k + 1) (status_read cfg) := rfl
    rw [hp]
    simp [wait_dr_reg, RM3100_SPI_READ, h0, hrec, status_read]

theorem wait_dr_reg_fuel (cfg : Config) (status : Nat → Nat) : ∀ (fuel k i : Nat),
    (∀ j, j < k → (status (i + j) % 256) &&& 0x80 ≠ 0x80) →
    fuel ≤ k →
    wait_dr_reg cfg status fuel i = Except.error Fault.outOfFuel := by
  intro fuel
  induction fuel with
  | zero =>
    intro k i _ _
    rfl
  | succ f ih =>
    intro k i hn hf
    have h0 : (status i % 256) &&& 0x80 ≠ 0x80 := by simpa using hn 0 (by omega)
    have hn1 : ∀ j, j < k - 1 → (status (i + 1 + j) % 256) &&& 0x80 ≠ 0x80 := by
      intro j hj
      have e : i + 1 + j = i + (j + 1) := by omega
      rw [e]
      exact hn (j + 1) (by omega)
    have hrec := ih (k - 1) (i + 1) hn1 (by omega)
    simp [wait_dr_reg, RM3100_SPI_READ, h0, hrec]

theorem wait_dr_pin_ok (cfg : Config) (pin : Nat → GPIO_PinState) : ∀ (k fuel i : Nat),
    pin (i + k) ≠ GPIO_PIN_RESET →
    (∀ j, j < k → pin (i + j) = GPIO_PIN_RESET) →
    k < fuel →
    wait_dr_pin cfg pin fuel i
      = Except.ok (List.replicate (k + 1) (Event.gpioRead cfg.GPIOB cfg.DR_PIN)) := by
  intro k
  induction k with
  | zero =>
    intro fuel i hr _ hf
    obtain ⟨f, rfl⟩ : ∃ f, fuel = f + 1 := ⟨fuel - 1, by omega⟩
    have hr0 : pin i ≠ GPIO_PIN_RESET := by simpa using hr
    simp [wait_dr_pin, hr0]
  | succ k ih =>
    intro fuel i hr hn hf
    obtain ⟨f, rfl⟩ : ∃ f, fuel = f + 1 := ⟨fuel - 1, by omega⟩
    have h0 : pin i = GPIO_PIN_RESET := by simpa using hn 0 (by omega)
    have hr1 : pin (i + 1 + k) ≠ GPIO_PIN_RESET := by
      have e : i + 1 + k = i + (k + 1) := by omega
      rw [e]
      exact hr
    have hn1 : ∀ j, j < k → pin (i + 1 + j) = GPIO_PIN_RESET := by
      intro j hj
      have e : i + 1 + j = i + (j + 1) := by omega
      rw [e]
      exact hn (j + 1) (by omega)
    have hrec := ih f (i + 1) hr1 hn1 (by omega)
    simp [wait_dr_pin, h0, hrec, List.replicate_succ]

theorem wait_dr_pin_fuel (cfg : Config) (pin : Nat → GPIO_PinState) : ∀ (fuel k i : Nat),
    (∀ j, j < k → pin (i + j) = GPIO_PIN_RESET) →
    fuel ≤ k →
    wait_dr_pin cfg pin fuel i = Except.error Fault.outOfFuel := by
  intro fuel
  induction fuel with
  | zero =>
    intro k i _ _
    rfl
  | succ f ih =>
    intro k i hn hf
    have h0 : pin i = GPIO_PIN_RESET := by simpa using hn 0 (by omega)
    have hn1 : ∀ j, j < k - 1 → pin (i + 1 + j) = GPIO_PIN_RESET := by
      intro j hj
      have e : i + 1 + j = i + (j + 1) := by omega
      rw [e]
      exact hn (j + 1) (by omega)
    have hrec := ih (k - 1) (i + 1) hn1 (by omega)
    simp [wait_dr_pin, h0, hrec]

theorem count_polls_receive (cfg : Config) (n : Nat) :
    (polls n (status_read cfg)).count (Event.spiReceive 1) = n := by
  induction n with
  | zero => rfl
  | succ n ih =>
    have hs : (status_read cfg).count (Event.spiReceive 1) = 1 := by
      simp [status_read, csLow, csHigh, List.count_cons]
    rw [polls, List.count_append, ih, hs]
    omega

/-! ## Lemmas: writes that leave the buffer or the payload -/

theorem copy_loop_fail (data : List Nat) : ∀ (n j : Nat) (buffer : List (Option Nat)),
    j + 1 ≤ buffer.length → j ≤ data.length →
    (buffer.length < j + 1 + n ∨ data.length < j + n) →
    ∃ e, copy_loop data n (j + 1) buffer = Except.error e := by
  intro n
  induction n with
  | zero =>
    intro j buffer hb hd h
    omega
  | succ n ih =>
    intro j buffer hb hd h
    by_cases hj : j < data.length
    · have hget : data.get? (j + 1 - 1) = some (data.get ⟨j, hj⟩) := by
        simp [List.getElem?_eq_getElem hj]
      by_cases hs : j + 1 < buffer.length
      · have hst : store buffer (j + 1) (data.get ⟨j, hj⟩)
            = Except.ok (buffer.set (j + 1) (some (data.get ⟨j, hj⟩))) := by
          unfold store
          rw [if_pos hs]
        obtain ⟨e, he⟩ := ih (j + 1) (buffer.set (j + 1) (some (data.get ⟨j, hj⟩)))
          (by simp; omega) (by omega) (by simp; omega)
        refine ⟨e, ?_⟩
        simp only [copy_loop, hget, hst]
        exact he
      · have hst : store buffer (j + 1) (data.get ⟨j, hj⟩)
            = Except.error (Fault.storeOutOfBounds (j + 1)) := by
          unfold store
          rw [if_neg hs]
        exact ⟨Fault.storeOutOfBounds (j + 1), by simp only [copy_loop, hget, hst]⟩
    · have hget : data.get? (j + 1 - 1) = none := by
        simp
        omega
      exact ⟨Fault.loadOutOfBounds (j + 1 - 1), by simp only [copy_loop, hget]⟩

theorem copy_loop_overflow (data : List Nat) : ∀ (n j : Nat) (buffer : List (Option Nat)),
    j + 1 ≤ buffer.length → buffer.length < j + 1 + n → buffer.length ≤ data.length →
    copy_loop data n (j + 1) buffer = Except.error (Fault.storeOutOfBounds buffer.length) := by
  intro n
  induction n with
  | zero =>
    intro j buffer hb h _
    omega
  | succ n ih =>
    intro j buffer hb h hd
    have hj : j < data.length := by omega
    have hget : data.get? (j + 1 - 1) = some (data.get ⟨j, hj⟩) := by
      simp [List.getElem?_eq_getElem hj]
    by_cases hs : j + 1 < buffer.length
    · have hst : store buffer (j + 1) (data.get ⟨j, hj⟩)
          = Except.ok (buffer.set (j + 1) (some (data.get ⟨j, hj⟩))) := by
        unfold store
        rw [if_pos hs]
      have hrec := ih (j + 1) (buffer.set (j + 1) (some (data.get ⟨j, hj⟩)))
        (by simp; omega) (by simp; omega) (by simpa using hd)
      simp only [copy_loop, hget, hst]
      simpa using hrec
    · have hst : store buffer (j + 1) (data.get ⟨j, hj⟩)
          = Except.error (Fault.storeOutOfBounds (j + 1)) := by
        unfold store
        rw [if_neg hs]
      have e : j + 1 = buffer.length := by omega
      simp only [copy_loop, hget, hst]
      rw [e]

theorem write_store_zero (addr : Nat) :
    store (List.replicate SPI_MAX_SEND none) 0 ((addr <<< 1) % 256)
      = Except.ok ((List.replicate SPI_MAX_SEND none).set 0 (some ((addr <<< 1) % 256))) := by
  unfold store
  rw [if_pos (by simp [SPI_MAX_SEND])]

/-- A write that completes respected the buffer and the payload. -/
theorem write_ok_bounds (cfg : Config) (addr : Nat) (data : List Nat) (size : Nat)
    (evs : List Event) (h : RM3100_SPI_WRITE cfg addr data size = Except.ok evs) :
    size + 1 ≤ SPI_MAX_SEND ∧ size ≤ data.length := by
  by_contra hc
  obtain ⟨e, he⟩ := copy_loop_fail data size 0
    ((List.replicate SPI_MAX_SEND none).set 0 (some ((addr <<< 1) % 256)))
    (by simp [SPI_MAX_SEND]) (by omega) (by simp [SPI_MAX_SEND] at hc ⊢; omega)
  simp only [Nat.zero_add] at he
  simp only [RM3100_SPI_WRITE, write_store_zero, he] at h
  exact absurd h (by simp)

/-- A write of 32 or more bytes from a payload that has them stores to
`buffer_saida[32]`. -/
theorem write_overflow (cfg : Config) (addr : Nat) (data : List Nat) (size : Nat)
    (h1 : SPI_MAX_SEND ≤ size) (h2 : SPI_MAX_SEND ≤ data.length) :
    RM3100_SPI_WRITE cfg addr data size
      = Except.error (Fault.storeOutOfBounds SPI_MAX_SEND) := by
  have he := copy_loop_overflow data size 0
    ((List.replicate SPI_MAX_SEND none).set 0 (some ((addr <<< 1) % 256)))
    (by simp [SPI_MAX_SEND]) (by simp [SPI_MAX_SEND] at h1 ⊢; omega) (by simpa using h2)
  simp only [Nat.zero_add] at he
  simp only [RM3100_SPI_WRITE, write_store_zero, he]
  simp

/-! ## Lemmas: cycle count -/

theorem cc_low (c : Nat) : c &&& 0xFF = c % 256 :=
  Nat.and_pow_two_sub_one_eq_mod c 8

theorem cc_high (c : Nat) (h : c < 65536) : (c &&& 0xFF00) >>> 8 = c / 256 := by
  apply Nat.eq_of_testBit_eq
  intro i
  rw [← Nat.shiftRight_eq_div_pow c 8, Nat.testBit_shiftRight, Nat.testBit_shiftRight,
    Nat.testBit_and]
  by_cases hi : i < 8
  · have hm : (0xFF00 : Nat).testBit (8 + i) = true := by
      interval_cases i <;> decide
    rw [hm, Bool.and_true]
  · have hp : 2 ^ 16 ≤ 2 ^ (8 + i) :=
      Nat.pow_le_pow_right (n := 2) (by decide) (by omega : 16 ≤ 8 + i)
    have hc : c.testBit (8 + i) = false :=
      Nat.testBit_lt_two_pow (Nat.lt_of_lt_of_le h hp)
    rw [hc, Bool.false_and]

theorem reassemble_split (c : Nat) (h : c < 65536) : reassemble (c / 256) (c % 256) = c := by
  unfold reassemble
  have e := Nat.mul_add_lt_is_or (i := 8) (b := c % 256) (Nat.mod_lt _ (by decide)) (c / 256)
  rw [Nat.mod_eq_of_lt (a := c / 256) (by omega), Nat.mod_eq_of_lt (a := c % 256) (by omega),
    Nat.shiftLeft_eq, Nat.mul_comm, ← e]
  omega

/-! ## Lemmas: the globals -/

theorem step_consistent (cfg : Config) (st st1 : DeviceState) (op : Op)
    (h : step cfg st op = Except.ok st1) :
    (∃ g dev, op = Op.setup g dev) ∧ Consistent st1 ∨ st1 = st := by
  cases op with
  | setup g dev =>
    left
    refine ⟨⟨g, dev, rfl⟩, ?_⟩
    simp only [step, setup_eq] at h
    injection h with h
    subst h
    simp [Consistent, gain_of]
  | changeCC new_cc =>
    right
    simp only [step] at h
    split at h
    · exact absurd h (by simp)
    · injection h with h
      exact h.symm
  | write addr data size =>
    right
    simp only [step] at h
    split at h
    · exact absurd h (by simp)
    · injection h with h
      exact h.symm
  | read addr rx size =>
    right
    simp only [step] at h
    injection h with h
    exact h.symm
  | data pin status fuel readings =>
    right
    simp only [step] at h
    split at h
    · exact absurd h (by simp)
    · injection h with h
      exact h.symm

theorem run_consistent (cfg : Config) : ∀ (ops : List Op) (st st1 : DeviceState),
    Consistent st → run cfg st ops = Except.ok st1 → Consistent st1 := by
  intro ops
  induction ops with
  | nil =>
    intro st st1 hc h
    simp only [run] at h
    injection h with h
    exact h ▸ hc
  | cons op ops ih =>
    intro st st1 hc h
    simp only [run] at h
    split at h
    · exact absurd h (by simp)
    · rename_i st2 hstep
      rcases step_consistent cfg st st2 op hstep with ⟨_, h2⟩ | h2
      · exact ih st2 st1 h2 h
      · exact ih st2 st1 (h2 ▸ hc) h

theorem run_after_setup (cfg : Config) (g : GPIO_InitTypeDef) (dev : SetupReplies) :
    ∀ (pre post : List Op) (st st1 : DeviceState),
    run cfg st (pre ++ Op.setup g dev :: post) = Except.ok st1 → Consistent st1 := by
  intro pre
  induction pre with
  | nil =>
    intro post st st1 h
    simp only [List.nil_append, run] at h
    split at h
    · exact absurd h (by simp)
    · rename_i st2 hstep
      rcases step_consistent cfg st st2 _ hstep with ⟨_, h2⟩ | h2
      · exact run_consistent cfg post st2 st1 h2 h
      · simp only [step, setup_eq] at hstep
        injection hstep with hstep
        refine run_consistent cfg post st2 st1 ?_ h
        rw [← hstep]
        simp [Consistent, gain_of]
  | cons op pre ih =>
    intro post st st1 h
    simp only [List.cons_append, run] at h
    split at h
    · exact absurd h (by simp)
    · rename_i st2 hstep
      exact ih post st2 st1 h

theorem signExtend24_range (b2 b1 b0 : Nat) (h2 : b2 < 256) (h1 : b1 < 256) (h0 : b0 < 256) :
    (b2.testBit 7 = false → 0 ≤ signExtend24 b2 b1 b0 ∧ signExtend24 b2 b1 b0 ≤ 8388607) ∧
    (b2.testBit 7 = true → -8388608 ≤ signExtend24 b2 b1 b0 ∧ signExtend24 b2 b1 b0 ≤ -1) := by
  unfold signExtend24
  constructor
  · intro hb
    have hlt : b2 < 128 := by
      by_contra hc
      have := (testBit7_iff b2 h2).mpr (by omega)
      rw [hb] at this
      exact absurd this (by decide)
    simp only [hb]
    constructor <;> simp <;> omega
  · intro hb
    have hge := (testBit7_iff b2 h2).mp hb
    simp only [hb, if_true]
    constructor <;> omega

theorem rd_window (a0 a1 a2 a3 a4 a5 a6 a7 a8 : Nat)
    (h0 : a0 < 256) (h1 : a1 < 256) (h2 : a2 < 256) (h3 : a3 < 256) (h4 : a4 < 256)
    (h5 : a5 < 256) (h6 : a6 < 256) (h7 : a7 < 256) (h8 : a8 < 256) :
    rd [a0, a1, a2, a3, a4, a5, a6, a7, a8] 0 = a0 ∧
    rd [a0, a1, a2, a3, a4, a5, a6, a7, a8] 1 = a1 ∧
    rd [a0, a1, a2, a3, a4, a5, a6, a7, a8] 2 = a2 ∧
    rd [a0, a1, a2, a3, a4, a5, a6, a7, a8] 3 = a3 ∧
    rd [a0, a1, a2, a3, a4, a5, a6, a7, a8] 4 = a4 ∧
    rd [a0, a1, a2, a3, a4, a5, a6, a7, a8] 5 = a5 ∧
    rd [a0, a1, a2, a3, a4, a5, a6, a7, a8] 6 = a6 ∧
    rd [a0, a1, a2, a3, a4, a5, a6, a7, a8] 7 = a7 ∧
    rd [a0, a1, a2, a3, a4, a5, a6, a7, a8] 8 = a8 := by
  simp only [rd, List.getD_cons_zero, List.getD_cons_succ]
  refine ⟨?_, ?_, ?_, ?_, ?_, ?_, ?_, ?_, ?_⟩ <;> exact Nat.mod_eq_of_lt (by assumption)

/-! ## The measurement decoder -/

/-- C1: for every 9-byte raw window received by `RM3100_SPI_DATA` once the
data-ready wait has returned, the call returns, and each of the returned
`x`, `y`, `z` is the sign-extended 24-bit two's-complement value of its own
3-byte group: it lies in `[0, 2^23 - 1]` when bit 7 of the top byte is clear
and in `[-2^23, -1]` when it is set.  The decoder maps `(0x80,0x00,0x00)` to
`-8388608`, `(0x7F,0xFF,0xFF)` to `8388607`, `(0x00,0x00,0x01)` to `1`, and
the window `(0x00,0x10,0x00, 0xFF,0xF0,0x00, 0x00,0x00,0x01)` to
`x = 4096, y = -4096, z = 1`. -/
theorem C1_data_sign_extension (cfg : Config) (st : DeviceState)
    (pin : Nat → GPIO_PinState) (status : Nat → Nat) (fuel : Nat) (e0 : List Event)
    (a0 a1 a2 a3 a4 a5 a6 a7 a8 : Nat)
    (h0 : a0 < 256) (h1 : a1 < 256) (h2 : a2 < 256) (h3 : a3 < 256) (h4 : a4 < 256)
    (h5 : a5 < 256) (h6 : a6 < 256) (h7 : a7 < 256) (h8 : a8 < 256)
    (hw : wait_dr cfg pin status fuel = Except.ok e0) :
    (∃ r, RM3100_SPI_DATA cfg st pin status fuel [a0, a1, a2, a3, a4, a5, a6, a7, a8]
          = Except.ok (r, e0 ++ burst_read cfg) ∧
        r.gain = st.gain ∧
        r.x = signExtend24 a0 a1 a2 ∧
        r.y = signExtend24 a3 a4 a5 ∧
        r.z = signExtend24 a6 a7 a8 ∧
        (a0.testBit 7 = false → 0 ≤ r.x ∧ r.x ≤ 8388607) ∧
        (a0.testBit 7 = true → -8388608 ≤ r.x ∧ r.x ≤ -1) ∧
        (a3.testBit 7 = false → 0 ≤ r.y ∧ r.y ≤ 8388607) ∧
        (a3.testBit 7 = true → -8388608 ≤ r.y ∧ r.y ≤ -1) ∧
        (a6.testBit 7 = false → 0 ≤ r.z ∧ r.z ≤ 8388607) ∧
        (a6.testBit 7 = true → -8388608 ≤ r.z ∧ r.z ≤ -1)) ∧
    data_format { x := 0, y := 0, z := 0, gain := st.gain }
        [0x80, 0x00, 0x00, 0x7F, 0xFF, 0xFF, 0x00, 0x00, 0x01]
      = { x := -8388608, y := 8388607, z := 1, gain := st.gain } ∧
    data_format { x := 0, y := 0, z := 0, gain := st.gain }
        [0x00, 0x10, 0x00, 0xFF, 0xF0, 0x00, 0x00, 0x00, 0x01]
      = { x := 4096, y := -4096, z := 1, gain := st.gain } := by
  obtain ⟨r0, r1, r2, r3, r4, r5, r6, r7, r8⟩ :=
    rd_window a0 a1 a2 a3 a4 a5 a6 a7 a8 h0 h1 h2 h3 h4 h5 h6 h7 h8
  have hx := format_axis_zero [a0, a1, a2, a3, a4, a5, a6, a7, a8] 0 1 2
  have hy := format_axis_zero [a0, a1, a2, a3, a4, a5, a6, a7, a8] 3 4 5
  have hz := format_axis_zero [a0, a1, a2, a3, a4, a5, a6, a7, a8] 6 7 8
  rw [r0, r1, r2] at hx
  rw [r3, r4, r5] at hy
  rw [r6, r7, r8] at hz
  have gx := signExtend24_range a0 a1 a2 h0 h1 h2
  have gy := signExtend24_range a3 a4 a5 h3 h4 h5
  have gz := signExtend24_range a6 a7 a8 h6 h7 h8
  refine ⟨⟨data_format { x := 0, y := 0, z := 0, gain := st.gain }
      [a0, a1, a2, a3, a4, a5, a6, a7, a8], ?_, rfl, hx, hy, hz, ?_, ?_, ?_, ?_, ?_, ?_⟩, ?_, ?_⟩
  · simp only [RM3100_SPI_DATA, hw]
  · simp only [data_format, hx]
    exact gx.1
  · simp only [data_format, hx]
    exact gx.2
  · simp only [data_format, hy]
    exact gy.1
  · simp only [data_format, hy]
    exact gy.2
  · simp only [data_format, hz]
    exact gz.1
  · simp only [data_format, hz]
    exact gz.2
  · have ex : format_axis 0 [0x80, 0x00, 0x00, 0x7F, 0xFF, 0xFF, 0x00, 0x00, 0x01] 0 1 2
        = -8388608 := by decide
    have ey : format_axis 0 [0x80, 0x00, 0x00, 0x7F, 0xFF, 0xFF, 0x00, 0x00, 0x01] 3 4 5
        = 8388607 := by decide
    have ez : format_axis 0 [0x80, 0x00, 0x00, 0x7F, 0xFF, 0xFF, 0x00, 0x00, 0x01] 6 7 8
        = 1 := by decide
    simp only [data_format, ex, ey, ez]
  · have ex : format_axis 0 [0x00, 0x10, 0x00, 0xFF, 0xF0, 0x00, 0x00, 0x00, 0x01] 0 1 2
        = 4096 := by decide
    have ey : format_axis 0 [0x00, 0x10, 0x00, 0xFF, 0xF0, 0x00, 0x00, 0x00, 0x01] 3 4 5
        = -4096 := by decide
    have ez : format_axis 0 [0x00, 0x10, 0x00, 0xFF, 0xF0, 0x00, 0x00, 0x00, 0x01] 6 7 8
        = 1 := by decide
    simp only [data_format, ex, ey, ez]

/-- C1 at the window `(0x00,0x10,0x00, 0xFF,0xF0,0x00, 0x00,0x00,0x01)`, with a
device that reports data ready on the first status read. -/
theorem C1_data_sign_extension_witness :
    wait_dr sampleConfig (fun _ => GPIO_PIN_RESET) (fun _ => 0x80) 1
        = Except.ok (status_read sampleConfig) ∧
    ∃ r, RM3100_SPI_DATA sampleConfig initialState (fun _ => GPIO_PIN_RESET) (fun _ => 0x80) 1
          [0x00, 0x10, 0x00, 0xFF, 0xF0, 0x00, 0x00, 0x00, 0x01]
          = Except.ok (r, status_read sampleConfig ++ burst_read sampleConfig) ∧
        r.x = 4096 ∧ r.y = -4096 ∧ r.z = 1 := by
  have hw : wait_dr sampleConfig (fun _ => GPIO_PIN_RESET) (fun _ => 0x80) 1
      = Except.ok (status_read sampleConfig) := by decide
  obtain ⟨⟨r, h, _, hx, hy, hz, _⟩, _⟩ :=
    C1_data_sign_extension sampleConfig initialState (fun _ => GPIO_PIN_RESET) (fun _ => 0x80) 1
      (status_read sampleConfig) 0x00 0x10 0x00 0xFF 0xF0 0x00 0x00 0x00 0x01
      (by decide) (by decide) (by decide) (by decide) (by decide) (by decide) (by decide)
      (by decide) (by decide) hw
  exact ⟨hw, r, h, hx.trans (by decide), hy.trans (by decide), hz.trans (by decide)⟩

/-! ## The gain -/

/-- C2 (counterexample): with the device reading back cycle count 200,
`RM3100_SPI_SETUP` stores a gain that is not `75.92`. -/
theorem C2_gain_200_counterexample :
    ∃ r, RM3100_SPI_SETUP sampleConfig zeroInit { revid := 0x22, ccx1 := 0x00, ccx0 := 0xC8 }
        = Except.ok r ∧
      r.state.cycle_count = 200 ∧ r.state.gain = gain_of 200 ∧ gain_of 200 ≠ 7592 / 100 := by
  refine ⟨_, setup_eq _ _ _, by decide, ?_, ?_⟩
  · have e : reassemble (0x00 % 256) (0xC8 % 256) = 200 := by decide
    simp only [e]
  · norm_num [gain_of]

/-- C2 (amended): the gain that `RM3100_SPI_SETUP` computes is a pure function
of the reassembled cycle count, `gain = 0.3671 * cycle_count + 1.5` over the
rationals, and for cycle count 200 this gain is `74.92`. -/
theorem C2_gain_formula (cfg : Config) (g : GPIO_InitTypeDef) (dev : SetupReplies) :
    ∃ r, RM3100_SPI_SETUP cfg g dev = Except.ok r ∧
      r.state.cycle_count = reassemble (dev.ccx1 % 256) (dev.ccx0 % 256) ∧
      r.state.gain = gain_of r.state.cycle_count ∧
      r.state.gain = 3671 / 10000 * (r.state.cycle_count : ℚ) + 3 / 2 ∧
      gain_of 200 = 7492 / 100 := by
  refine ⟨_, setup_eq cfg g dev, rfl, rfl, rfl, ?_⟩
  norm_num [gain_of]

/-! ## The cycle count -/

/-- C3: for every 16-bit value `C`, `RM3100_SPI_CHANGE_CC` issues one write
starting at the first cycle-count register whose six payload bytes are
`[hi, lo, hi, lo, hi, lo]` with `hi = C >> 8` and `lo = C & 0xFF`, and
reassembling the pair the way `RM3100_SPI_SETUP` does, `(hi << 8) | lo`,
gives `C` back: a setup whose two read-backs return `hi` and `lo` stores
`cycle_count = C`. -/
theorem C3_cycle_count_round_trip (cfg : Config) (C : Nat) (hC : C < 65536) :
    cc_buffer C = [C >>> 8, C &&& 0xFF, C >>> 8, C &&& 0xFF, C >>> 8, C &&& 0xFF] ∧
    RM3100_SPI_CHANGE_CC cfg C
      = Except.ok [csLow cfg,
          Event.spiTransmit [(cfg.CCX1_REG <<< 1) % 256,
            C >>> 8, C &&& 0xFF, C >>> 8, C &&& 0xFF, C >>> 8, C &&& 0xFF],
          csHigh cfg] ∧
    reassemble (C >>> 8) (C &&& 0xFF) = C ∧
    ∀ (g : GPIO_InitTypeDef) (revid : Nat),
      ∃ r, RM3100_SPI_SETUP cfg g { revid := revid, ccx1 := C >>> 8, ccx0 := C &&& 0xFF }
          = Except.ok r ∧ r.state.cycle_count = C := by
  have hhi : C >>> 8 = C / 256 := Nat.shiftRight_eq_div_pow C 8
  have hlo : C &&& 0xFF = C % 256 := cc_low C
  have hb : cc_buffer C
      = [C >>> 8, C &&& 0xFF, C >>> 8, C &&& 0xFF, C >>> 8, C &&& 0xFF] := by
    unfold cc_buffer
    simp only [Nat.mod_eq_of_lt hC, cc_high C hC, hhi, hlo]
    rw [Nat.mod_eq_of_lt (a := C / 256) (by omega), Nat.mod_mod]
  have hr : reassemble (C >>> 8) (C &&& 0xFF) = C := by
    rw [hhi, hlo]
    exact reassemble_split C hC
  refine ⟨hb, ?_, hr, ?_⟩
  · have hw := write_ok cfg cfg.CCX1_REG (cc_buffer C) 6 (by decide)
      (by rw [cc_buffer_length])
    have ht : List.take 6 (cc_buffer C) = cc_buffer C := rfl
    rw [ht, hb] at hw
    unfold RM3100_SPI_CHANGE_CC
    rw [hb]
    exact hw
  · intro g revid
    refine ⟨_, setup_eq cfg g _, ?_⟩
    simp only
    rw [hhi, hlo, Nat.mod_eq_of_lt (a := C / 256) (by omega), Nat.mod_mod]
    exact reassemble_split C hC

/-- C3 at cycle count 200. -/
theorem C3_cycle_count_round_trip_witness :
    200 < 65536 ∧
    RM3100_SPI_CHANGE_CC sampleConfig 200
      = Except.ok [csLow sampleConfig,
          Event.spiTransmit [0x08, 0x00, 0xC8, 0x00, 0xC8, 0x00, 0xC8],
          csHigh sampleConfig] ∧
    reassemble 0x00 0xC8 = 200 :=
  ⟨by decide, (C3_cycle_count_round_trip sampleConfig 200 (by decide)).2.1,
    (C3_cycle_count_round_trip sampleConfig 200 (by decide)).2.2.1⟩

/-! ## The register transport -/

/-- C4: for every `addr`, every payload and every size `n` with `n + 1 ≤ 32`
and `n ≤` the payload length, `RM3100_SPI_WRITE` completes with every store
into the 32-byte frame buffer in bounds and transmits exactly one frame, of
length `n + 1`, whose first byte is `addr << 1` truncated to 8 bits (its low
bit is 0) and whose remaining `n` bytes are the first `n` payload bytes in
order. -/
theorem C4_write_frame (cfg : Config) (addr : Nat) (data : List Nat) (size : Nat)
    (h1 : size + 1 ≤ 32) (h2 : size ≤ data.length) :
    ∃ frame, RM3100_SPI_WRITE cfg addr data size
        = Except.ok [csLow cfg, Event.spiTransmit frame, csHigh cfg] ∧
      frame.length = size + 1 ∧
      frame.head? = some ((addr <<< 1) % 256) ∧
      ((addr <<< 1) % 256) % 2 = 0 ∧
      frame.tail = data.take size ∧
      (∀ i, i < size → frame.get? (i + 1) = data.get? i) := by
  refine ⟨((addr <<< 1) % 256) :: data.take size, write_ok cfg addr data size h1 h2,
    ?_, rfl, ?_, rfl, ?_⟩
  · simp
    omega
  · rw [Nat.shiftLeft_eq]
    omega
  · intro i hi
    simp [List.getElem?_take, hi]

/-- C4 at a 3-byte write to register `0x04` from a 4-byte payload. -/
theorem C4_write_frame_witness :
    3 + 1 ≤ 32 ∧ 3 ≤ [0x11, 0x22, 0x33, 0x44].length ∧
    ∃ frame, RM3100_SPI_WRITE sampleConfig 0x04 [0x11, 0x22, 0x33, 0x44] 3
        = Except.ok [csLow sampleConfig, Event.spiTransmit frame, csHigh sampleConfig] ∧
      frame = [0x08, 0x11, 0x22, 0x33] := by
  obtain ⟨frame, h, _, _, _, _, _⟩ :=
    C4_write_frame sampleConfig 0x04 [0x11, 0x22, 0x33, 0x44] 3 (by decide) (by decide)
  refine ⟨by decide, by decide, frame, h, ?_⟩
  have h3 : RM3100_SPI_WRITE sampleConfig 0x04 [0x11, 0x22, 0x33, 0x44] 3
      = Except.ok [csLow sampleConfig, Event.spiTransmit [0x08, 0x11, 0x22, 0x33],
          csHigh sampleConfig] := by decide
  rw [h3] at h
  injection h with h
  injection h with _ h
  injection h with h _
  injection h with h
  exact h.symm

/-- C5 (counterexample): a call with size 32, a 16-bit value, on a payload of
32 bytes stores to `buffer_saida[32]`, past the last index 31 of the frame
buffer. -/
theorem C5_write_size_32_counterexample :
    (32 : Nat) < 65536 ∧ ¬ (32 < SPI_MAX_SEND) ∧
    RM3100_SPI_WRITE sampleConfig 0x04 (List.replicate 32 0) 32
      = Except.error (Fault.storeOutOfBounds 32) := by
  decide

/-- C5 (amended): `RM3100_SPI_WRITE` has no size check.  For every `addr`,
payload and size `n` with `n + 1 ≤ 32` (and `n ≤` the payload length) it
stores `n + 1` bytes, at indices `0..n`, and hands length `n + 1 ≤ 32` to the
transmit; a call completes within the buffer only in that case; and a call
with `n ≥ 32` on a payload of at least 32 bytes stores at index 32. -/
theorem C5_write_within_max (cfg : Config) (addr : Nat) (data : List Nat) (size : Nat) :
    (size + 1 ≤ SPI_MAX_SEND → size ≤ data.length →
      ∃ frame, RM3100_SPI_WRITE cfg addr data size
          = Except.ok [csLow cfg, Event.spiTransmit frame, csHigh cfg] ∧
        frame.length = size + 1 ∧ frame.length ≤ SPI_MAX_SEND) ∧
    (∀ evs, RM3100_SPI_WRITE cfg addr data size = Except.ok evs →
      size + 1 ≤ SPI_MAX_SEND ∧ size ≤ data.length) ∧
    (SPI_MAX_SEND ≤ size → SPI_MAX_SEND ≤ data.length →
      RM3100_SPI_WRITE cfg addr data size
        = Except.error (Fault.storeOutOfBounds SPI_MAX_SEND)) := by
  refine ⟨?_, ?_, ?_⟩
  · intro h1 h2
    refine ⟨((addr <<< 1) % 256) :: data.take size, write_ok cfg addr data size h1 h2, ?_, ?_⟩
    · simp
      omega
    · simp
      omega
  · intro evs h
    exact write_ok_bounds cfg addr data size evs h
  · intro h1 h2
    exact write_overflow cfg addr data size h1 h2

/-- C5 (amended) at the largest admissible size, 31. -/
theorem C5_write_within_max_witness :
    31 + 1 ≤ SPI_MAX_SEND ∧ 31 ≤ (List.replicate 31 0x5A).length ∧
    ∃ frame, RM3100_SPI_WRITE sampleConfig 0x04 (List.replicate 31 0x5A) 31
        = Except.ok [csLow sampleConfig, Event.spiTransmit frame, csHigh sampleConfig] ∧
      frame.length = 31 + 1 ∧ frame.length ≤ SPI_MAX_SEND :=
  ⟨by decide, by decide,
    (C5_write_within_max sampleConfig 0x04 (List.replicate 31 0x5A) 31).1
      (by decide) (by decide)⟩

/-- C6 (counterexample): a write of 40 bytes leaves the 32-byte frame buffer
in its copy loop, at the store to `buffer_saida[32]`, before the chip-select
pin is driven; the call has no chip-select window around one transmit of the
whole frame. -/
theorem C6_write_oversize_counterexample :
    RM3100_SPI_WRITE sampleConfig 0x01 (List.replicate 40 0x79) 40
      = Except.error (Fault.storeOutOfBounds 32) ∧
    ¬ ∃ frame, RM3100_SPI_WRITE sampleConfig 0x01 (List.replicate 40 0x79) 40
      = Except.ok [Event.gpioWrite sampleConfig.CS_GPIO sampleConfig.CS_PIN GPIO_PIN_RESET,
          Event.spiTransmit frame,
          Event.gpioWrite sampleConfig.CS_GPIO sampleConfig.CS_PIN GPIO_PIN_SET] := by
  have h : RM3100_SPI_WRITE sampleConfig 0x01 (List.replicate 40 0x79) 40
      = Except.error (Fault.storeOutOfBounds 32) := by decide
  refine ⟨h, ?_⟩
  rintro ⟨frame, hf⟩
  rw [h] at hf
  exact absurd hf (by simp)

/-- C6 (amended): every `RM3100_SPI_WRITE` whose size respects the frame
buffer and the payload (`n + 1 ≤ 32`, `n ≤` payload length), every
`RM3100_SPI_READ`, and the burst read inside `RM3100_SPI_DATA` emit exactly
one chip-select-low event (the chip-select pin written to `GPIO_PIN_RESET`),
as their first event, and exactly one chip-select-high event (the pin written
to `GPIO_PIN_SET`), as their last, with the bus transfers of the operation
between them and no chip-select event in between: one transmit of the whole
frame for a write; one 1-byte address transmit and one receive of `size`
bytes for a read; one transmit of the command byte `0xA4` and one 9-byte
transmit-receive for the burst.  A write completes only when its size
respects the buffer and the payload. -/
theorem C6_chip_select_bracketing (cfg : Config) :
    (∀ (addr : Nat) (data : List Nat) (size : Nat),
      (size + 1 ≤ 32 → size ≤ data.length →
        RM3100_SPI_WRITE cfg addr data size
          = Except.ok [Event.gpioWrite cfg.CS_GPIO cfg.CS_PIN GPIO_PIN_RESET,
              Event.spiTransmit (((addr <<< 1) % 256) :: data.take size),
              Event.gpioWrite cfg.CS_GPIO cfg.CS_PIN GPIO_PIN_SET]) ∧
      (∀ evs, RM3100_SPI_WRITE cfg addr data size = Except.ok evs →
        size + 1 ≤ 32 ∧ size ≤ data.length ∧
        evs = [Event.gpioWrite cfg.CS_GPIO cfg.CS_PIN GPIO_PIN_RESET,
            Event.spiTransmit (((addr <<< 1) % 256) :: data.take size),
            Event.gpioWrite cfg.CS_GPIO cfg.CS_PIN GPIO_PIN_SET] ∧
        Bracketed cfg evs ∧
        chipSelectWrites cfg GPIO_PIN_RESET evs = 1 ∧
        chipSelectWrites cfg GPIO_PIN_SET evs = 1)) ∧
    (∀ (addr : Nat) (rx : Nat → Nat) (size : Nat),
      (RM3100_SPI_READ cfg addr rx size).2
        = [Event.gpioWrite cfg.CS_GPIO cfg.CS_PIN GPIO_PIN_RESET,
            Event.spiTransmit [(addr <<< 1) % 256], Event.spiReceive size,
            Event.gpioWrite cfg.CS_GPIO cfg.CS_PIN GPIO_PIN_SET] ∧
      Bracketed cfg (RM3100_SPI_READ cfg addr rx size).2 ∧
      chipSelectWrites cfg GPIO_PIN_RESET (RM3100_SPI_READ cfg addr rx size).2 = 1 ∧
      chipSelectWrites cfg GPIO_PIN_SET (RM3100_SPI_READ cfg addr rx size).2 = 1) ∧
    (∀ (st : DeviceState) (pin : Nat → GPIO_PinState) (status : Nat → Nat) (fuel : Nat)
        (readings : List Nat),
      (∀ e0, wait_dr cfg pin status fuel = Except.ok e0 →
        ∃ r, RM3100_SPI_DATA cfg st pin status fuel readings
          = Except.ok (r, e0 ++
              [Event.gpioWrite cfg.CS_GPIO cfg.CS_PIN GPIO_PIN_RESET,
                Event.spiTransmit [0xA4],
                Event.spiTransmitReceive [0xA5, 0xA6, 0xA7, 0xA8, 0xA9, 0xAA, 0xAB, 0xAC, 0] 9,
                Event.gpioWrite cfg.CS_GPIO cfg.CS_PIN GPIO_PIN_SET])) ∧
      (∀ r evs, RM3100_SPI_DATA cfg st pin status fuel readings = Except.ok (r, evs) →
        ∃ e0, wait_dr cfg pin status fuel = Except.ok e0 ∧
          evs = e0 ++
            [Event.gpioWrite cfg.CS_GPIO cfg.CS_PIN GPIO_PIN_RESET,
              Event.spiTransmit [0xA4],
              Event.spiTransmitReceive [0xA5, 0xA6, 0xA7, 0xA8, 0xA9, 0xAA, 0xAB, 0xAC, 0] 9,
              Event.gpioWrite cfg.CS_GPIO cfg.CS_PIN GPIO_PIN_SET])) ∧
    Bracketed cfg
      [Event.gpioWrite cfg.CS_GPIO cfg.CS_PIN GPIO_PIN_RESET,
        Event.spiTransmit [0xA4],
        Event.spiTransmitReceive [0xA5, 0xA6, 0xA7, 0xA8, 0xA9, 0xAA, 0xAB, 0xAC, 0] 9,
        Event.gpioWrite cfg.CS_GPIO cfg.CS_PIN GPIO_PIN_SET] ∧
    chipSelectWrites cfg GPIO_PIN_RESET
      [Event.gpioWrite cfg.CS_GPIO cfg.CS_PIN GPIO_PIN_RESET,
        Event.spiTransmit [0xA4],
        Event.spiTransmitReceive [0xA5, 0xA6, 0xA7, 0xA8, 0xA9, 0xAA, 0xAB, 0xAC, 0] 9,
        Event.gpioWrite cfg.CS_GPIO cfg.CS_PIN GPIO_PIN_SET] = 1 ∧
    chipSelectWrites cfg GPIO_PIN_SET
      [Event.gpioWrite cfg.CS_GPIO cfg.CS_PIN GPIO_PIN_RESET,
        Event.spiTransmit [0xA4],
        Event.spiTransmitReceive [0xA5, 0xA6, 0xA7, 0xA8, 0xA9, 0xAA, 0xAB, 0xAC, 0] 9,
        Event.gpioWrite cfg.CS_GPIO cfg.CS_PIN GPIO_PIN_SET] = 1 := by
  refine ⟨?_, ?_, ?_, ?_, ?_, ?_⟩
  · intro addr data size
    refine ⟨fun h1 h2 => write_ok cfg addr data size h1 h2, ?_⟩
    intro evs h
    obtain ⟨h1, h2⟩ := write_ok_bounds cfg addr data size evs h
    rw [write_ok cfg addr data size h1 h2] at h
    injection h with h
    subst h
    refine ⟨h1, h2, rfl,
      ⟨[Event.spiTransmit (((addr <<< 1) % 256) :: data.take size)], rfl, ?_⟩, ?_, ?_⟩
    · intro e he
      simp only [List.mem_singleton] at he
      subst he
      rfl
    · simp [chipSelectWrites, csLow, csHigh, List.count_cons]
    · simp [chipSelectWrites, csLow, csHigh, List.count_cons]
  · intro addr rx size
    refine ⟨rfl,
      ⟨[Event.spiTransmit [(addr <<< 1) % 256], Event.spiReceive size], rfl, ?_⟩, ?_, ?_⟩
    · intro e he
      simp only [List.mem_cons, List.mem_singleton, List.not_mem_nil, or_false] at he
      rcases he with he | he <;> subst he <;> rfl
    · simp [chipSelectWrites, RM3100_SPI_READ, csLow, csHigh, List.count_cons]
    · simp [chipSelectWrites, RM3100_SPI_READ, csLow, csHigh, List.count_cons]
  · intro st pin status fuel readings
    constructor
    · intro e0 h
      exact ⟨data_format { x := 0, y := 0, z := 0, gain := st.gain } readings,
        by simp only [RM3100_SPI_DATA, h]; rfl⟩
    · intro r evs h
      cases hw : wait_dr cfg pin status fuel with
      | error e =>
        simp only [RM3100_SPI_DATA, hw] at h
        exact absurd h (by simp)
      | ok e0 =>
        simp only [RM3100_SPI_DATA, hw] at h
        injection h with h
        injection h with _ h
        exact ⟨e0, rfl, h.symm⟩
  · refine ⟨[Event.spiTransmit [0xA4],
      Event.spiTransmitReceive [0xA5, 0xA6, 0xA7, 0xA8, 0xA9, 0xAA, 0xAB, 0xAC, 0] 9], rfl, ?_⟩
    intro e he
    simp only [List.mem_cons, List.mem_singleton, List.not_mem_nil, or_false] at he
    rcases he with he | he <;> subst he <;> rfl
  · simp [chipSelectWrites, List.count_cons]
  · simp [chipSelectWrites, List.count_cons]

/-- C6 (amended) at a 1-byte write to register `0x01` and at a sample taken on
the first status read. -/
theorem C6_chip_select_bracketing_witness :
    1 + 1 ≤ 32 ∧ 1 ≤ [0x79].length ∧
    RM3100_SPI_WRITE sampleConfig 0x01 [0x79] 1
      = Except.ok [Event.gpioWrite 0 16 GPIO_PIN_RESET, Event.spiTransmit [0x02, 0x79],
          Event.gpioWrite 0 16 GPIO_PIN_SET] ∧
    Bracketed sampleConfig [Event.gpioWrite 0 16 GPIO_PIN_RESET,
      Event.spiTransmit [0x02, 0x79], Event.gpioWrite 0 16 GPIO_PIN_SET] ∧
    wait_dr sampleConfig (fun _ => GPIO_PIN_RESET) (fun _ => 0x80) 1
      = Except.ok [Event.gpioWrite 0 16 GPIO_PIN_RESET, Event.spiTransmit [0x68],
          Event.spiReceive 1, Event.gpioWrite 0 16 GPIO_PIN_SET] ∧
    ∃ r, RM3100_SPI_DATA sampleConfig initialState (fun _ => GPIO_PIN_RESET) (fun _ => 0x80) 1
        [0, 0, 1, 0, 0, 2, 0, 0, 3]
      = Except.ok (r,
          [Event.gpioWrite 0 16 GPIO_PIN_RESET, Event.spiTransmit [0x68],
            Event.spiReceive 1, Event.gpioWrite 0 16 GPIO_PIN_SET] ++
          [Event.gpioWrite 0 16 GPIO_PIN_RESET, Event.spiTransmit [0xA4],
            Event.spiTransmitReceive [0xA5, 0xA6, 0xA7, 0xA8, 0xA9, 0xAA, 0xAB, 0xAC, 0] 9,
            Event.gpioWrite 0 16 GPIO_PIN_SET]) :=
  ⟨by decide, by decide,
    ((C6_chip_select_bracketing sampleConfig).1 0x01 [0x79] 1).1 (by decide) (by decide),
    (((C6_chip_select_bracketing sampleConfig).1 0x01 [0x79] 1).2 _ (by decide)).2.2.2.1,
    by decide,
    ((C6_chip_select_bracketing sampleConfig).2.2.1 initialState (fun _ => GPIO_PIN_RESET)
      (fun _ => 0x80) 1 [0, 0, 1, 0, 0, 2, 0, 0, 3]).1 _ (by decide)⟩

/-! ## The data-ready gate -/

set_option maxRecDepth 100000 in
theorem and80_iff (b : Nat) (h : b < 256) : b &&& 0x80 = 0x80 ↔ b.testBit 7 = true := by
  revert h
  revert b
  decide

theorem status_bit7 (b : Nat) : (b % 256) &&& 0x80 = 0x80 ↔ b.testBit 7 = true := by
  rw [and80_iff (b % 256) (Nat.mod_lt _ (by decide))]
  have e := Nat.testBit_mod_two_pow b 8 7
  simp only [show (2 : Nat) ^ 8 = 256 from rfl] at e
  rw [e]
  simp

theorem wait_dr_reg_nonempty (cfg : Config) (status : Nat → Nat) (fuel i : Nat)
    (evs : List Event) (h : wait_dr_reg cfg status fuel i = Except.ok evs) : evs ≠ [] := by
  cases fuel with
  | zero => exact absurd h (by simp [wait_dr_reg])
  | succ f =>
    simp only [wait_dr_reg] at h
    split at h
    · split at h
      · exact absurd h (by simp)
      · injection h with h
        rw [← h]
        simp [RM3100_SPI_READ]
    · injection h with h
      rw [← h]
      simp [RM3100_SPI_READ]

theorem wait_dr_pin_nonempty (cfg : Config) (pin : Nat → GPIO_PinState) (fuel i : Nat)
    (evs : List Event) (h : wait_dr_pin cfg pin fuel i = Except.ok evs) : evs ≠ [] := by
  cases fuel with
  | zero => exact absurd h (by simp [wait_dr_pin])
  | succ f =>
    simp only [wait_dr_pin] at h
    split at h
    · split at h
      · exact absurd h (by simp)
      · injection h with h
        rw [← h]
        simp
    · injection h with h
      rw [← h]
      simp

/-- C7: with the device given as the sequence of its answers to successive
polls, in register-driven mode `wait_dr` returns after exactly `k + 1` 1-byte
reads of the status register, where `k` is the index of the first answer with
bit 7 set, and in pin-driven mode after exactly `k + 1` pin reads, where `k` is
the index of the first logic-high reading: given such a `k` the wait
terminates (any fuel above `k` suffices), it has not returned within `k`
polls, and no return happens without at least one poll. -/
theorem C7_wait_dr_exact_polls (cfg : Config) (pin : Nat → GPIO_PinState)
    (status : Nat → Nat) (k fuel : Nat) :
    (cfg.USE_DR_PIN = 0 → (status k).testBit 7 = true →
      (∀ j, j < k → (status j).testBit 7 = false) →
      (k < fuel →
        wait_dr cfg pin status fuel = Except.ok (polls (k + 1) (status_read cfg)) ∧
        (polls (k + 1) (status_read cfg)).count (Event.spiReceive 1) = k + 1) ∧
      (fuel ≤ k → wait_dr cfg pin status fuel = Except.error Fault.outOfFuel)) ∧
    (cfg.USE_DR_PIN ≠ 0 → pin k = GPIO_PIN_SET →
      (∀ j, j < k → pin j = GPIO_PIN_RESET) →
      (k < fuel →
        wait_dr cfg pin status fuel
          = Except.ok (List.replicate (k + 1) (Event.gpioRead cfg.GPIOB cfg.DR_PIN))) ∧
      (fuel ≤ k → wait_dr cfg pin status fuel = Except.error Fault.outOfFuel)) ∧
    (∀ evs, wait_dr cfg pin status fuel = Except.ok evs → evs ≠ []) ∧
    status_read cfg
      = [csLow cfg, Event.spiTransmit [(cfg.STATUS_REG <<< 1) % 256], Event.spiReceive 1,
          csHigh cfg] := by
  refine ⟨?_, ?_, ?_, rfl⟩
  · intro hm hk hn
    have hr : (status (0 + k) % 256) &&& 0x80 = 0x80 := by
      rw [Nat.zero_add]
      exact (status_bit7 _).mpr hk
    have hnr : ∀ j, j < k → (status (0 + j) % 256) &&& 0x80 ≠ 0x80 := by
      intro j hj hc
      rw [Nat.zero_add] at hc
      have := (status_bit7 _).mp hc
      rw [hn j hj] at this
      exact absurd this (by decide)
    constructor
    · intro hf
      refine ⟨?_, count_polls_receive cfg (k + 1)⟩
      simp only [wait_dr, hm, ne_eq, not_true_eq_false, if_false]
      exact wait_dr_reg_ok cfg status k fuel 0 hr hnr hf
    · intro hf
      simp only [wait_dr, hm, ne_eq, not_true_eq_false, if_false]
      exact wait_dr_reg_fuel cfg status fuel k 0 hnr hf
  · intro hm hk hn
    have hr : pin (0 + k) ≠ GPIO_PIN_RESET := by
      rw [Nat.zero_add, hk]
      decide
    have hnr : ∀ j, j < k → pin (0 + j) = GPIO_PIN_RESET := by
      intro j hj
      rw [Nat.zero_add]
      exact hn j hj
    constructor
    · intro hf
      simp only [wait_dr, hm, ne_eq, not_false_eq_true, if_true]
      exact wait_dr_pin_ok cfg pin k fuel 0 hr hnr hf
    · intro hf
      simp only [wait_dr, hm, ne_eq, not_false_eq_true, if_true]
      exact wait_dr_pin_fuel cfg pin fuel k 0 hnr hf
  · intro evs h
    unfold wait_dr at h
    split at h
    · exact wait_dr_pin_nonempty cfg pin fuel 0 evs h
    · exact wait_dr_reg_nonempty cfg status fuel 0 evs h

/-- C7 in register-driven mode, the device reporting data ready at the third
poll. -/
theorem C7_wait_dr_exact_polls_witness :
    sampleConfig.USE_DR_PIN = 0 ∧
    (if 2 < 2 then 0x00 else 0x80 : Nat).testBit 7 = true ∧
    wait_dr sampleConfig (fun _ => GPIO_PIN_RESET) (fun i => if i < 2 then 0x00 else 0x80) 5
      = Except.ok (polls 3 (status_read sampleConfig)) ∧
    wait_dr sampleConfig (fun _ => GPIO_PIN_RESET) (fun i => if i < 2 then 0x00 else 0x80) 2
      = Except.error Fault.outOfFuel := by
  have h := (C7_wait_dr_exact_polls sampleConfig (fun _ => GPIO_PIN_RESET)
    (fun i => if i < 2 then 0x00 else 0x80) 2 5).1 (by decide) (by decide)
    (by intro j hj; interval_cases j <;> decide)
  have h2 := (C7_wait_dr_exact_polls sampleConfig (fun _ => GPIO_PIN_RESET)
    (fun i => if i < 2 then 0x00 else 0x80) 2 2).1 (by decide) (by decide)
    (by intro j hj; interval_cases j <;> decide)
  exact ⟨by decide, by decide, (h.1 (by decide)).1, h2.2 (by decide)⟩

/-! ## The globals -/

/-- C8 (counterexample): in the initial state, before `RM3100_SPI_SETUP` has
run, the stored pair is `cycle_count = 0`, `gain = 1.0`, and
`0.3671 * 0 + 1.5` is not `1.0`. -/
theorem C8_initial_state_counterexample :
    run sampleConfig initialState [] = Except.ok initialState ∧
    initialState.cycle_count = 0 ∧ initialState.gain = 1 ∧
    initialState.gain ≠ 3671 / 10000 * (initialState.cycle_count : ℚ) + 3 / 2 := by
  refine ⟨rfl, rfl, rfl, ?_⟩
  norm_num [initialState]

/-- C8 (amended): in every state reached from the initial state by a
sequence of the public operations that contains a call of
`RM3100_SPI_SETUP`, the stored gain and the stored cycle count are a
consistent pair, `gain = 0.3671 * cycle_count + 1.5` over the rationals. -/
theorem C8_consistent_after_setup (cfg : Config) (pre post : List Op)
    (g : GPIO_InitTypeDef) (dev : SetupReplies) (st : DeviceState)
    (h : run cfg initialState (pre ++ Op.setup g dev :: post) = Except.ok st) :
    st.gain = 3671 / 10000 * (st.cycle_count : ℚ) + 3 / 2 :=
  run_after_setup cfg g dev pre post initialState st h

/-- C8 (amended) on a run of all five public operations around one setup. -/
theorem C8_consistent_after_setup_witness :
    run sampleConfig initialState
        ([Op.changeCC 100] ++ Op.setup zeroInit { revid := 0x22, ccx1 := 0x00, ccx0 := 0xC8 }
          :: [Op.changeCC 50, Op.write 0x01 [0x79] 1, Op.read 0x36 (fun _ => 0x22) 1,
              Op.data (fun _ => GPIO_PIN_RESET) (fun _ => 0x80) 1 [0, 0, 1, 0, 0, 2, 0, 0, 3]])
      = Except.ok { revid := 0x22, cycle_count := 200, gain := 7492 / 100 } ∧
    (7492 / 100 : ℚ) = 3671 / 10000 * ((200 : Nat) : ℚ) + 3 / 2 := by
  have hrun : run sampleConfig initialState
        ([Op.changeCC 100] ++ Op.setup zeroInit { revid := 0x22, ccx1 := 0x00, ccx0 := 0xC8 }
          :: [Op.changeCC 50, Op.write 0x01 [0x79] 1, Op.read 0x36 (fun _ => 0x22) 1,
              Op.data (fun _ => GPIO_PIN_RESET) (fun _ => 0x80) 1 [0, 0, 1, 0, 0, 2, 0, 0, 3]])
      = Except.ok { revid := 0x22, cycle_count := 200, gain := 7492 / 100 } := by
    have c1 : RM3100_SPI_CHANGE_CC sampleConfig 100
        = Except.ok [csLow sampleConfig,
            Event.spiTransmit [0x08, 0x00, 0x64, 0x00, 0x64, 0x00, 0x64],
            csHigh sampleConfig] := by decide
    have c2 : RM3100_SPI_CHANGE_CC sampleConfig 50
        = Except.ok [csLow sampleConfig,
            Event.spiTransmit [0x08, 0x00, 0x32, 0x00, 0x32, 0x00, 0x32],
            csHigh sampleConfig] := by decide
    have c3 : RM3100_SPI_WRITE sampleConfig 0x01 [0x79] 1
        = Except.ok [csLow sampleConfig, Event.spiTransmit [0x02, 0x79],
            csHigh sampleConfig] := by decide
    have c4 : wait_dr sampleConfig (fun _ => GPIO_PIN_RESET) (fun _ => 0x80) 1
        = Except.ok (status_read sampleConfig) := by decide
    have c5 : reassemble (0x00 % 256) (0xC8 % 256) = 200 := by decide
    simp only [List.singleton_append, run, step, setup_eq, c1, c2, c3, c4, c5,
      RM3100_SPI_DATA]
    norm_num [gain_of]
  exact ⟨hrun, C8_consistent_after_setup sampleConfig _ _ _ _ _ hrun⟩

/-! ## The configurator -/

/-- C9: `RM3100_SPI_SETUP` always completes, and sampling-mode selection is
its last step, decided only by the single-shot switch.  In single-shot mode
its events end with the frame `[CMM_REG << 1, 0x00]` followed by the frame
`[POLL_REG << 1, 0x70]`, each in its own chip-select window; otherwise they end
with the single frame `[CMM_REG << 1, 0x79]`.  Everything else the setup
emits (the pin configuration, the identity read, the cycle-count write, the
two read-backs and the diagnostics) comes before, and the final writes do not
depend on what the device returned. -/
theorem C9_setup_mode_selection (cfg : Config) (g : GPIO_InitTypeDef) (dev : SetupReplies) :
    ∃ r, RM3100_SPI_SETUP cfg g dev = Except.ok r ∧
      r.events = setup_before cfg g dev ++
        (if cfg.SINGLE_MODE ≠ 0 then
          [csLow cfg, Event.spiTransmit [(cfg.CMM_REG <<< 1) % 256, 0x00], csHigh cfg,
           csLow cfg, Event.spiTransmit [(cfg.POLL_REG <<< 1) % 256, 0x70], csHigh cfg]
        else
          [csLow cfg, Event.spiTransmit [(cfg.CMM_REG <<< 1) % 256, 0x79], csHigh cfg]) ∧
      setup_before cfg g dev =
        [Event.gpioInit cfg.DR_GPIO r.init,
          csLow cfg, Event.spiTransmit [(cfg.REVID_REG <<< 1) % 256], Event.spiReceive 1,
          csHigh cfg]
        ++ uart_print (Msg.revidId r.state.revid) cfg.UART_DBG
        ++ [csLow cfg,
          Event.spiTransmit (((cfg.CCX1_REG <<< 1) % 256) :: cc_buffer (cfg.INITIAL_CC % 65536)),
          csHigh cfg,
          csLow cfg, Event.spiTransmit [(cfg.CCX1_REG <<< 1) % 256], Event.spiReceive 1,
          csHigh cfg,
          csLow cfg, Event.spiTransmit [(cfg.CCX0_REG <<< 1) % 256], Event.spiReceive 1,
          csHigh cfg]
        ++ uart_print (Msg.cyclesCount r.state.cycle_count) cfg.UART_DBG
        ++ uart_print (Msg.gainIs r.state.gain) cfg.UART_DBG ∧
      ∀ dev1 : SetupReplies, ∃ r1, RM3100_SPI_SETUP cfg g dev1 = Except.ok r1 ∧
        r1.events.drop (setup_before cfg g dev1).length
          = r.events.drop (setup_before cfg g dev).length := by
  refine ⟨_, setup_eq cfg g dev, rfl, ?_, ?_⟩
  · simp [setup_before]
  · intro dev1
    refine ⟨_, setup_eq cfg g dev1, ?_⟩
    simp only [List.drop_left]

/-- C10 (counterexample): with the register-driven strategy configured
(`USE_DR_PIN = 0`), `RM3100_SPI_SETUP` still makes the pin-configuration
call, and the record it passes has `Pull = GPIO_NOPULL`, not
`GPIO_PULLDOWN`. -/
theorem C10_setup_pin_counterexample :
    sampleConfig.USE_DR_PIN = 0 ∧
    ∃ r, RM3100_SPI_SETUP sampleConfig zeroInit { revid := 0x22, ccx1 := 0x00, ccx0 := 0xC8 }
        = Except.ok r ∧
      r.events.head? = some (Event.gpioInit sampleConfig.DR_GPIO r.init) ∧
      r.init.Pull = GPIO_NOPULL ∧ r.init.Pull ≠ GPIO_PULLDOWN := by
  refine ⟨rfl, _, setup_eq _ _ _, rfl, rfl, ?_⟩
  decide

/-- C10 (amended): the first step of `RM3100_SPI_SETUP` configures the
data-ready pin as a digital input with no pull resistor, whichever data-ready
strategy is configured: the first event is the GPIO init call on the
data-ready port, the record passed has `Pin = DR_PIN`,
`Mode = GPIO_MODE_INPUT` and `Pull = GPIO_NOPULL` with the other fields as the
caller left them, and it is the only GPIO init call of the setup. -/
theorem C10_setup_pin_configuration (cfg : Config) (g : GPIO_InitTypeDef)
    (dev : SetupReplies) :
    ∃ r, RM3100_SPI_SETUP cfg g dev = Except.ok r ∧
      r.events.head? = some (Event.gpioInit cfg.DR_GPIO r.init) ∧
      r.init = { Pin := cfg.DR_PIN, Mode := GPIO_MODE_INPUT, Pull := GPIO_NOPULL,
                 Speed := g.Speed, Alternate := g.Alternate } ∧
      (r.events.filter (fun e => match e with
          | Event.gpioInit _ _ => true
          | _ => false)) = [Event.gpioInit cfg.DR_GPIO r.init] := by
  refine ⟨_, setup_eq cfg g dev, rfl, rfl, ?_⟩
  by_cases hd : cfg.UART_DBG = 0 <;> by_cases hm : cfg.SINGLE_MODE = 0 <;>
    simp [setup_before, setup_mode, uart_print, csLow, csHigh, hd, hm, List.filter_cons]

end RM3100
